import Mathlib

/-! video-control-rest: the control and capability model of `main.c`

A shallow embedding of the functions of `src/main.c` that decode capability
masks, normalise control names and walk the driver's controls, followed by the
properties proved about them.

Conventions of the embedding:
* a C string is the list of its characters before the terminating NUL
  (`List Char`, one `Char` per C `char`);
* C `int` values are `Int`; where a conversion or an increment can leave the
  32-bit range it is written out with `wrap32`;
* `__u32` bit masks are `Nat`, and `&` is `&&&`;
* the driver is given by its answers: the controls it enumerates, in order,
  each with the results of the requests made while it is handled;
* the text buffers of the handlers (`controls`, `control`, `menu`, ...) are
  taken as large enough for what is appended; the two buffers that hold one
  value of the function's own argument have their size modelled:
  `out_name[128]` of `name2var`, whose guard the length test is, and the ten
  bytes of `snum` in `field_name_get` and `colorspace_name_get`;
* the format requests of the driver are functions of what is asked, and the
  loops that follow the driver until a call fails take fuel.
-/

namespace VideoControlRest

/-! ## Machine integers and libc -/

/-- Conversion of an integer to a 32-bit two's-complement `int`. -/
def wrap32 (z : Int) : Int := (z + 2147483648) % 4294967296 - 2147483648

/-- The libc `strlen`: number of characters before the NUL. -/
def strlen (s : List Char) : Nat := s.length

/-- The libc `isalnum` in the "C" locale: ASCII letters and digits. -/
def isalnum (c : Char) : Bool := c.isAlphanum

/-- The libc `tolower` in the "C" locale: ASCII upper case to lower case. -/
def tolower (c : Char) : Char := c.toLower

/-! ## `name2var` (main.c 187-218) -/

/-- Size of `char out_name[128]`. -/
def out_name_size : Nat := 128

/-- What a call of `name2var` does: it returns `NULL`, it returns a fresh copy
of `out_name`, or it writes past the end of `out_name[128]` (the terminating
NUL included), which C leaves undefined. -/
inductive NameResult
  | null
  | overrun
  | str (s : List Char)
deriving DecidableEq, Repr

/-- Body of the `for` loop of `name2var`, over the characters `name[i]` still to
be read, with the current contents of `out_name` and `add_underscore`. -/
def name2var_loop : List Char → List Char → Bool → List Char
  | [], out_name, _ => out_name
  | c :: rest, out_name, add_underscore =>
    if isalnum c then
      name2var_loop rest
        ((if add_underscore then out_name ++ ['_'] else out_name) ++ [tolower c]) false
    else
      name2var_loop rest out_name true

/-- The value `int len_name = strlen(name) - 1`. -/
def len_name (name : List Char) : Int := wrap32 ((strlen name : Int) - 1)

/-- The function `name2var`: `NULL` when `len_name > 127`, otherwise the loop over
`name[0..len_name]`. The string built needs `length + 1` bytes of `out_name`;
`strcat`/`strncat` only append, so an append leaves the array exactly when the
final string does not fit. -/
def name2var (name : List Char) : NameResult :=
  if len_name name > 127 then NameResult.null
  else
    let out_name := name2var_loop (name.take (len_name name + 1).toNat) [] false
    if out_name.length + 1 ≤ out_name_size then NameResult.str out_name
    else NameResult.overrun

/-- Closed form of `name2var_loop`: the characters appended to `out_name` from a
given `add_underscore` state on. -/
def name2var_appended : Bool → List Char → List Char
  | _, [] => []
  | add_underscore, c :: rest =>
    if isalnum c then
      (if add_underscore then ['_', tolower c] else [tolower c]) ++ name2var_appended false rest
    else
      name2var_appended true rest

/-! ## Name tables (main.c 76-119) and the constants of `<linux/videodev2.h>` -/

/-- Conversion of an `int` to `unsigned` (`__u32`), as the operand of `&`. -/
def to_u32 (z : Int) : Nat := (z % 4294967296).toNat

/-- The struct `enum_names`: an `int` and a `char *` that may be `NULL`. -/
structure enum_names where
  bitmask : Int
  name : Option (List Char)
deriving DecidableEq, Repr

/-- The characters a `char *` of a table points to (none for `NULL`). -/
def c_str (p : Option (List Char)) : List Char := p.getD []

/-- An initialiser `{VALUE, "NAME"}`: the value is stored in an `int`. -/
def enum_entry (value : Nat) (name : String) : enum_names :=
  { bitmask := wrap32 value, name := some name.toList }

/-- The zero initialiser `{0, NULL}` of the array slots without initialiser. -/
def enum_zero : enum_names := { bitmask := 0, name := none }

/- Capability flags of `<linux/videodev2.h>`, the header main.c includes. -/
def V4L2_CAP_VIDEO_CAPTURE : Nat := 0x00000001
def V4L2_CAP_VIDEO_OUTPUT : Nat := 0x00000002
def V4L2_CAP_VIDEO_OVERLAY : Nat := 0x00000004
def V4L2_CAP_VBI_CAPTURE : Nat := 0x00000010
def V4L2_CAP_VBI_OUTPUT : Nat := 0x00000020
def V4L2_CAP_SLICED_VBI_CAPTURE : Nat := 0x00000040
def V4L2_CAP_SLICED_VBI_OUTPUT : Nat := 0x00000080
def V4L2_CAP_RDS_CAPTURE : Nat := 0x00000100
def V4L2_CAP_VIDEO_OUTPUT_OVERLAY : Nat := 0x00000200
def V4L2_CAP_HW_FREQ_SEEK : Nat := 0x00000400
def V4L2_CAP_RDS_OUTPUT : Nat := 0x00000800
def V4L2_CAP_VIDEO_CAPTURE_MPLANE : Nat := 0x00001000
def V4L2_CAP_VIDEO_OUTPUT_MPLANE : Nat := 0x00002000
def V4L2_CAP_VIDEO_M2M_MPLANE : Nat := 0x00004000
def V4L2_CAP_VIDEO_M2M : Nat := 0x00008000
def V4L2_CAP_TUNER : Nat := 0x00010000
def V4L2_CAP_AUDIO : Nat := 0x00020000
def V4L2_CAP_RADIO : Nat := 0x00040000
def V4L2_CAP_MODULATOR : Nat := 0x00080000
def V4L2_CAP_READWRITE : Nat := 0x01000000
def V4L2_CAP_ASYNCIO : Nat := 0x02000000
def V4L2_CAP_STREAMING : Nat := 0x04000000
def V4L2_CAP_DEVICE_CAPS : Nat := 0x80000000

/- Buffer types (`enum v4l2_buf_type`) of `<linux/videodev2.h>`. -/
def V4L2_BUF_TYPE_VIDEO_CAPTURE : Nat := 1
def V4L2_BUF_TYPE_VIDEO_OUTPUT : Nat := 2
def V4L2_BUF_TYPE_VIDEO_OVERLAY : Nat := 3
def V4L2_BUF_TYPE_VBI_CAPTURE : Nat := 4
def V4L2_BUF_TYPE_VBI_OUTPUT : Nat := 5
def V4L2_BUF_TYPE_SLICED_VBI_CAPTURE : Nat := 6
def V4L2_BUF_TYPE_SLICED_VBI_OUTPUT : Nat := 7
def V4L2_BUF_TYPE_VIDEO_OUTPUT_OVERLAY : Nat := 8
def V4L2_BUF_TYPE_VIDEO_CAPTURE_MPLANE : Nat := 9
def V4L2_BUF_TYPE_VIDEO_OUTPUT_MPLANE : Nat := 10
def V4L2_BUF_TYPE_SDR_CAPTURE : Nat := 11
def V4L2_BUF_TYPE_SDR_OUTPUT : Nat := 12

/-- The table `v4l2_capability_names[23]`. -/
def v4l2_capability_names : List enum_names :=
  [ enum_entry V4L2_CAP_VIDEO_CAPTURE "VIDEO_CAPTURE",
    enum_entry V4L2_CAP_VIDEO_OUTPUT "VIDEO_OUTPUT",
    enum_entry V4L2_CAP_VIDEO_OVERLAY "VIDEO_OVERLAY",
    enum_entry V4L2_CAP_VBI_CAPTURE "VBI_CAPTURE",
    enum_entry V4L2_CAP_VBI_OUTPUT "VBI_OUTPUT",
    enum_entry V4L2_CAP_SLICED_VBI_CAPTURE "SLICED_VBI_CAPTURE",
    enum_entry V4L2_CAP_SLICED_VBI_OUTPUT "SLICED_VBI_OUTPUT",
    enum_entry V4L2_CAP_RDS_CAPTURE "RDS_CAPTURE",
    enum_entry V4L2_CAP_VIDEO_OUTPUT_OVERLAY "VIDEO_OUTPUT_OVERLAY",
    enum_entry V4L2_CAP_HW_FREQ_SEEK "HW_FREQ_SEEK",
    enum_entry V4L2_CAP_RDS_OUTPUT "RDS_OUTPUT",
    enum_entry V4L2_CAP_VIDEO_CAPTURE_MPLANE "VIDEO_CAPTURE_MPLANE",
    enum_entry V4L2_CAP_VIDEO_OUTPUT_MPLANE "VIDEO_OUTPUT_MPLANE",
    enum_entry V4L2_CAP_VIDEO_M2M_MPLANE "VIDEO_M2M_MPLANE",
    enum_entry V4L2_CAP_VIDEO_M2M "VIDEO_M2M",
    enum_entry V4L2_CAP_TUNER "TUNER",
    enum_entry V4L2_CAP_AUDIO "AUDIO",
    enum_entry V4L2_CAP_RADIO "RADIO",
    enum_entry V4L2_CAP_MODULATOR "MODULATOR",
    enum_entry V4L2_CAP_READWRITE "READWRITE",
    enum_entry V4L2_CAP_ASYNCIO "ASYNCIO",
    enum_entry V4L2_CAP_STREAMING "STREAMING",
    enum_entry V4L2_CAP_DEVICE_CAPS "DEVICE_CAPS" ]

/-- The table `v4l2_buffer_type_names[23]`: twelve initialisers, the other
eleven slots are zero. -/
def v4l2_buffer_type_names : List enum_names :=
  [ enum_entry V4L2_BUF_TYPE_VIDEO_CAPTURE "VIDEO_CAPTURE",
    enum_entry V4L2_BUF_TYPE_VIDEO_OUTPUT "VIDEO_OUTPUT",
    enum_entry V4L2_BUF_TYPE_VIDEO_OVERLAY "VIDEO_OVERLAY",
    enum_entry V4L2_BUF_TYPE_VBI_CAPTURE "VBI_CAPTURE",
    enum_entry V4L2_BUF_TYPE_VBI_OUTPUT "VBI_OUTPUT",
    enum_entry V4L2_BUF_TYPE_SLICED_VBI_CAPTURE "SLICED_VBI_CAPTURE",
    enum_entry V4L2_BUF_TYPE_SLICED_VBI_OUTPUT "SLICED_VBI_OUTPUT",
    enum_entry V4L2_BUF_TYPE_VIDEO_OUTPUT_OVERLAY "VIDEO_OUTPUT_OVERLAY",
    enum_entry V4L2_BUF_TYPE_VIDEO_CAPTURE_MPLANE "VIDEO_CAPTURE_MPLANE",
    enum_entry V4L2_BUF_TYPE_VIDEO_OUTPUT_MPLANE "VIDEO_OUTPUT_MPLANE",
    enum_entry V4L2_BUF_TYPE_SDR_CAPTURE "SDR_CAPTURE",
    enum_entry V4L2_BUF_TYPE_SDR_OUTPUT "SDR_OUTPUT" ] ++ List.replicate 11 enum_zero

/-! ## Text assembly -/

/-- The recurring idiom `if (count) strcat(buf, sep); strcat(buf, item); count++`. -/
def strcat_item (sep : List Char) (st : List Char × Nat) (item : List Char) : List Char × Nat :=
  ((if st.2 ≠ 0 then st.1 ++ sep else st.1) ++ item, st.2 + 1)

/-- A name between double quotes: `strcat(b, "\""); strcat(b, name); strcat(b, "\"")`. -/
def quoted (name : List Char) : List Char := "\"".toList ++ name ++ "\"".toList

/-! ## `device_list`: the capability loop (main.c 258-273) -/

/-- The loop `for (c = 0; c < 23; c++)` of `device_list` over the entries
`v4l2_capability_names[c]`, with the buffer `capabilities` and
`count_capabilities`. -/
def device_list_capabilities_loop (capabilities : Nat) :
    List enum_names → List Char × Nat → List Char × Nat
  | [], st => st
  | e :: rest, st =>
    if capabilities &&& to_u32 e.bitmask ≠ 0 then
      device_list_capabilities_loop capabilities rest
        ((((if st.2 ≠ 0 then st.1 ++ ",".toList else st.1) ++ "\"".toList) ++ c_str e.name)
          ++ "\"".toList, st.2 + 1)
    else
      device_list_capabilities_loop capabilities rest st

/-- The text `device_list` puts between the brackets of "capabilities" for a
device whose `cap.capabilities` is the given mask. -/
def device_list_capabilities (capabilities : Nat) : List Char :=
  (device_list_capabilities_loop capabilities v4l2_capability_names ([], 0)).1

/-- From the spec's words: the names of the table entries whose flag the mask
contains, in table order. -/
def decoded_capabilities (capabilities : Nat) : List (List Char) :=
  (v4l2_capability_names.filter (fun e => decide (capabilities &&& to_u32 e.bitmask ≠ 0))).map
    (fun e => c_str e.name)

/-! ## `device_buffer_check` (main.c 527-563) -/

/-- Conversion of a `__u32` to the `int` a function returns. -/
def u32_to_int (n : Nat) : Int := wrap32 n

/-- The C value of `!a && b`. -/
def not_and (a : Int) (b : Nat) : Int := if a = 0 ∧ b ≠ 0 then 1 else 0

/-- The function `device_buffer_check(cap, buffer_index, exclude_overlay)`, on
`cap->capabilities`. -/
def device_buffer_check (capabilities : Nat) (buffer_index : Int) (exclude_overlay : Int) : Int :=
  if buffer_index = V4L2_BUF_TYPE_VIDEO_CAPTURE then
    u32_to_int (capabilities &&& V4L2_CAP_VIDEO_CAPTURE)
  else if buffer_index = V4L2_BUF_TYPE_VIDEO_OUTPUT then
    u32_to_int (capabilities &&& V4L2_CAP_VIDEO_OUTPUT)
  else if buffer_index = V4L2_BUF_TYPE_VIDEO_OVERLAY then
    not_and exclude_overlay (capabilities &&& V4L2_CAP_VIDEO_OVERLAY)
  else if buffer_index = V4L2_BUF_TYPE_VBI_CAPTURE then
    u32_to_int (capabilities &&& V4L2_CAP_VBI_CAPTURE)
  else if buffer_index = V4L2_BUF_TYPE_VBI_OUTPUT then
    u32_to_int (capabilities &&& V4L2_CAP_VBI_OUTPUT)
  else if buffer_index = V4L2_BUF_TYPE_SLICED_VBI_CAPTURE then
    u32_to_int (capabilities &&& V4L2_CAP_SLICED_VBI_CAPTURE)
  else if buffer_index = V4L2_BUF_TYPE_SLICED_VBI_OUTPUT then
    u32_to_int (capabilities &&& V4L2_CAP_SLICED_VBI_OUTPUT)
  else if buffer_index = V4L2_BUF_TYPE_VIDEO_OUTPUT_OVERLAY then
    not_and exclude_overlay (capabilities &&& V4L2_CAP_VIDEO_OUTPUT_OVERLAY)
  else if buffer_index = V4L2_BUF_TYPE_VIDEO_CAPTURE_MPLANE then
    u32_to_int (capabilities &&& V4L2_CAP_VIDEO_CAPTURE_MPLANE)
  else if buffer_index = V4L2_BUF_TYPE_VIDEO_OUTPUT_MPLANE then
    u32_to_int (capabilities &&& V4L2_CAP_VIDEO_OUTPUT_MPLANE)
  else 0


/-! ## The driver and the operating system, as the handlers see them -/

/-- The reply `mg_http_reply(con, status, headers, body)`, the body being the
text handed over. -/
structure http_reply where
  status : Nat
  headers : List Char
  body : List Char
deriving DecidableEq, Repr

/-- The fields of `struct v4l2_queryctrl` the handlers read. -/
structure v4l2_queryctrl where
  id : Nat
  type : Nat
  name : List Char
  minimum : Int
  maximum : Int
  step : Int
  default_value : Int
  flags : Nat

/-- The fields of `struct v4l2_querymenu` a successful VIDIOC_QUERYMENU fills:
the label of a menu entry and the value of an integer-menu entry. -/
structure v4l2_querymenu where
  name : List Char
  value : Int

/-- One control of the driver's enumeration: the descriptor a successful
VIDIOC_QUERYCTRL returns and the driver's answers to the other requests made
while that control is handled. An `Except` is the value on success and
`errno` on failure.
* `g_ctrl`: VIDIOC_G_CTRL in `device_control_get`;
* `querymenu index`: VIDIOC_QUERYMENU at a `__u32` index, `none` on failure;
* `s_ctrl value`: VIDIOC_S_CTRL of that value, `none` on success, else `errno`;
* `g_ctrl_written value`: VIDIOC_G_CTRL after that value was written. -/
structure control_io where
  queryctrl : v4l2_queryctrl
  g_ctrl : Except Nat Int
  querymenu : Nat → Option v4l2_querymenu
  s_ctrl : Int → Option Nat
  g_ctrl_written : Int → Except Nat Int

/-- The fields `frmsize.discrete.width` and `frmsize.discrete.height`. -/
structure v4l2_frmsize_discrete where
  width : Nat
  height : Nat
deriving DecidableEq, Repr

/-- The fields of `frmsize.stepwise`. -/
structure v4l2_frmsize_stepwise where
  min_width : Nat
  max_width : Nat
  step_width : Nat
  min_height : Nat
  max_height : Nat
  step_height : Nat
deriving DecidableEq, Repr

/-- The fields of `struct v4l2_frmsizeenum` a successful
VIDIOC_ENUM_FRAMESIZES fills: the type and the two views of the union, of
which the code reads the one the type selects. -/
structure v4l2_frmsizeenum where
  type : Nat
  discrete : v4l2_frmsize_discrete
  stepwise : v4l2_frmsize_stepwise
deriving DecidableEq, Repr

/-- The system under the handlers: `sys_open path` is the result of
`open(path, O_RDWR | O_NONBLOCK)` (a descriptor, or -1), `controls fd` the
controls for which VIDIOC_QUERYCTRL succeeds on `fd`, in the order of the
successive calls, up to the first call that fails, and `strerror` the libc
text of an `errno`. For the format requests the driver is a function of what
is asked, `none` being a call that fails:
* `querycap fd`: VIDIOC_QUERYCAP, the field `cap.capabilities`;
* `enum_fmt fd type index`: VIDIOC_ENUM_FMT, the field `fmtdesc.pixelformat`;
* `enum_framesizes fd pixel_format index`: VIDIOC_ENUM_FRAMESIZES. -/
structure Os where
  sys_open : List Char → Int
  controls : Int → List control_io
  strerror : Nat → List Char
  querycap : Int → Option Nat
  enum_fmt : Int → Nat → Nat → Option Nat
  enum_framesizes : Int → Nat → Nat → Option v4l2_frmsizeenum

/-- A device request issued with `ioctl(fd, ...)`, with the arguments that
select what is asked. -/
inductive ioctl_call
  | VIDIOC_QUERYCTRL (fd : Int) (id : Nat)
  | VIDIOC_G_CTRL (fd : Int) (id : Nat)
  | VIDIOC_S_CTRL (fd : Int) (id : Nat) (value : Int)
  | VIDIOC_QUERYMENU (fd : Int) (id : Nat) (index : Nat)
  | VIDIOC_QUERYCAP (fd : Int)
  | VIDIOC_ENUM_FMT (fd : Int) (type : Nat) (index : Nat)
  | VIDIOC_ENUM_FRAMESIZES (fd : Int) (pixel_format : Nat) (index : Nat)
deriving DecidableEq, Repr

/-- The request body `hm->body` as `device_control_set` reads it, through the
two calls of mjson.h (a library that is not part of main.c):
`mjson_get_number path` is `some v` when `mjson_get_number(body, len, path, &dv)`
returns non-zero, `v` being `(__s32)dv`, the only use made of `dv`;
`mjson_get_string path n` is the value returned by
`mjson_get_string(body, len, path, buf, n)`. -/
structure json_body where
  mjson_get_number : List Char → Option Int
  mjson_get_string : List Char → Nat → Int

/- Constants of `<errno.h>` and `<linux/videodev2.h>`. -/
def ENODEV : Int := 19
def V4L2_CTRL_FLAG_NEXT_CTRL : Nat := 0x80000000
def V4L2_CTRL_FLAG_NEXT_COMPOUND : Nat := 0x40000000
def V4L2_CTRL_TYPE_MENU : Nat := 3
def V4L2_CTRL_TYPE_INTEGER_MENU : Nat := 9

/-- The conversion `%d` (and `%lld`) of `sprintf`. -/
def fmt_d (z : Int) : List Char := (toString z).toList

/-- The format `FORMAT_CONTROL_VALUE`, `"%s": %d`. -/
def FORMAT_CONTROL_VALUE (name : List Char) (value : Int) : List Char :=
  "\"".toList ++ name ++ "\": ".toList ++ fmt_d value

/-- The format `FORMAT_CONTROL_STRING`, `"%s": "%s"`. -/
def FORMAT_CONTROL_STRING (name text : List Char) : List Char :=
  "\"".toList ++ name ++ "\": \"".toList ++ text ++ "\"".toList

/-- The format `FORMAT_CONTROL`, up to the opening brace of the menu. -/
def FORMAT_CONTROL (name : List Char) (minimum maximum default_value step value : Int) :
    List Char :=
  "\"".toList ++ name ++ "\": \x7b \"minimum\": \"".toList ++ fmt_d minimum ++
    "\", \"maximum\": \"".toList ++ fmt_d maximum ++
    "\", \"default\": \"".toList ++ fmt_d default_value ++
    "\", \"step\": \"".toList ++ fmt_d step ++
    "\", \"value\": \"".toList ++ fmt_d value ++ "\", \"menu\": \x7b ".toList

/-! ## `device_open` (main.c 297-308) -/

/-- The function `device_open`: `-ENODEV` unless the name starts with "video"
(`strncmp(device_name, "video", 5)`), else the result of `open`. -/
def device_open (os : Os) (device_name : List Char) : Int :=
  if device_name.take 5 ≠ "video".toList then -ENODEV
  else os.sys_open ("/dev/".toList ++ device_name)

/-! ## `device_control_get` (main.c 310-433) -/

/-- The value `next_fl`. -/
def next_fl : Nat := V4L2_CTRL_FLAG_NEXT_CTRL ||| V4L2_CTRL_FLAG_NEXT_COMPOUND

/-- The text appended to `menu` for an entry that resolved: the index printed
with `%d`, then the label of a menu or the `%lld` value of an integer menu. -/
def menu_entry (type : Nat) (index : Nat) (querymenu : v4l2_querymenu) : List Char :=
  "\"".toList ++ fmt_d (wrap32 index) ++ "\": \"".toList ++
    (if type = V4L2_CTRL_TYPE_MENU then querymenu.name else fmt_d querymenu.value) ++
    "\"".toList

/-- The loop `for (menu_index = queryctrl.minimum; menu_index <= queryctrl.maximum;
menu_index++)` with the state `(menu, menu_count)` and the requests issued.
One unit of fuel is one evaluation of the loop test; `none` is a loop still
running when the fuel is spent. `menu_index++` is the 32-bit increment. -/
def device_control_get_menu_loop (fd : Int) (c : control_io) :
    Nat → Int → (List Char × Nat) × List ioctl_call →
      Option ((List Char × Nat) × List ioctl_call)
  | 0, _, _ => none
  | fuel + 1, menu_index, (menu, log) =>
    if menu_index ≤ c.queryctrl.maximum then
      let index := to_u32 menu_index
      let log := log ++ [ioctl_call.VIDIOC_QUERYMENU fd c.queryctrl.id index]
      match c.querymenu index with
      | some querymenu =>
        device_control_get_menu_loop fd c fuel (wrap32 (menu_index + 1))
          (strcat_item ", ".toList menu (menu_entry c.queryctrl.type index querymenu), log)
      | none =>
        device_control_get_menu_loop fd c fuel (wrap32 (menu_index + 1)) (menu, log)
    else some (menu, log)

/-- The body of the `while` loop of `device_control_get` for one control the
driver returned: the text `control` appended to `controls`, if any, and the
requests issued. The text `flags` the loop builds first is never used and is
left out. A control is skipped when `name2var` gives no string
(`queryctrl.name` has 32 bytes, so it does give one). -/
def device_control_get_control (fuel : Nat) (fd : Int) (c : control_io) :
    Option (Option (List Char) × List ioctl_call) :=
  match name2var c.queryctrl.name with
  | NameResult.str var_name =>
    match c.g_ctrl with
    | Except.ok value =>
      let menu :=
        if c.queryctrl.type = V4L2_CTRL_TYPE_MENU ∨
            c.queryctrl.type = V4L2_CTRL_TYPE_INTEGER_MENU then
          device_control_get_menu_loop fd c fuel c.queryctrl.minimum
            (([], 0), [ioctl_call.VIDIOC_G_CTRL fd c.queryctrl.id])
        else some (([], 0), [ioctl_call.VIDIOC_G_CTRL fd c.queryctrl.id])
      match menu with
      | some ((menu, _), log) =>
        some (some (FORMAT_CONTROL var_name c.queryctrl.minimum c.queryctrl.maximum
            c.queryctrl.default_value c.queryctrl.step value ++ menu ++ " \x7d \x7d".toList),
          log)
      | none => none
    | Except.error _ => some (none, [ioctl_call.VIDIOC_G_CTRL fd c.queryctrl.id])
  | _ => some (none, [])

/-- The loop `while (ioctl(fd, VIDIOC_QUERYCTRL, &queryctrl) == 0)` of
`device_control_get` over the controls the driver returns, with the cursor
`queryctrl.id`, the state `(controls, controls_count)` and the requests
issued; the query that fails ends the loop. -/
def device_control_get_loop (fuel : Nat) (fd : Int) :
    List control_io → Nat → (List Char × Nat) × List ioctl_call →
      Option ((List Char × Nat) × List ioctl_call)
  | [], id, (controls, log) => some (controls, log ++ [ioctl_call.VIDIOC_QUERYCTRL fd id])
  | c :: rest, id, (controls, log) =>
    match device_control_get_control fuel fd c with
    | some (some control, calls) =>
      device_control_get_loop fuel fd rest (c.queryctrl.id ||| next_fl)
        (strcat_item ", ".toList controls control,
          log ++ ioctl_call.VIDIOC_QUERYCTRL fd id :: calls)
    | some (none, calls) =>
      device_control_get_loop fuel fd rest (c.queryctrl.id ||| next_fl)
        (controls, log ++ ioctl_call.VIDIOC_QUERYCTRL fd id :: calls)
    | none => none

/-- The handler `device_control_get`: the reply sent and the device requests
issued; `none` when a menu loop is still running after `fuel` tests. -/
def device_control_get (fuel : Nat) (os : Os) (device_name : List Char) :
    Option (http_reply × List ioctl_call) :=
  let fd := device_open os device_name
  if fd = 0 then
    some ({ status := 400, headers := [], body := "Device can't be opened.".toList }, [])
  else
    match device_control_get_loop fuel fd (os.controls fd) next_fl
        (("\x7b ".toList, 0), []) with
    | some ((controls, _), log) =>
      some ({ status := 200, headers := "Content-Type: application/json\r\n".toList,
              body := controls ++ " \x7d\n".toList }, log)
    | none => none

/-! ## `device_control_set` (main.c 435-525) -/

/-- The body of the `while` loop of `device_control_set` for one control the
driver returned: the text `control` appended to `controls`, if any, and the
requests issued. A control is skipped (`continue`) when `name2var` gives no
string. -/
def device_control_set_control (os : Os) (body : json_body) (fd : Int) (c : control_io) :
    Option (List Char) × List ioctl_call :=
  match name2var c.queryctrl.name with
  | NameResult.str var_name =>
    let json_path := "$.".toList ++ var_name
    match body.mjson_get_number json_path with
    | some value =>
      match c.s_ctrl value with
      | none =>
        match c.g_ctrl_written value with
        | Except.ok value2 =>
          (some (FORMAT_CONTROL_VALUE var_name value2),
            [ioctl_call.VIDIOC_S_CTRL fd c.queryctrl.id value,
             ioctl_call.VIDIOC_G_CTRL fd c.queryctrl.id])
        | Except.error errno =>
          (some (FORMAT_CONTROL_STRING var_name (os.strerror errno)),
            [ioctl_call.VIDIOC_S_CTRL fd c.queryctrl.id value,
             ioctl_call.VIDIOC_G_CTRL fd c.queryctrl.id])
      | some errno =>
        (some (FORMAT_CONTROL_STRING var_name (os.strerror errno)),
          [ioctl_call.VIDIOC_S_CTRL fd c.queryctrl.id value])
    | none =>
      if body.mjson_get_string json_path 32 > -1 then
        (some (FORMAT_CONTROL_STRING var_name "Error: Only numbers are expected".toList), [])
      else (none, [])
  | _ => (none, [])

/-- The loop `while (ioctl(fd, VIDIOC_QUERYCTRL, &queryctrl) == 0)` of
`device_control_set`, with the cursor `queryctrl.id`, the state
`(controls, controls_count)` and the requests issued. -/
def device_control_set_loop (os : Os) (body : json_body) (fd : Int) :
    List control_io → Nat → (List Char × Nat) × List ioctl_call →
      (List Char × Nat) × List ioctl_call
  | [], id, (controls, log) => (controls, log ++ [ioctl_call.VIDIOC_QUERYCTRL fd id])
  | c :: rest, id, (controls, log) =>
    match device_control_set_control os body fd c with
    | (some control, calls) =>
      device_control_set_loop os body fd rest (c.queryctrl.id ||| next_fl)
        (strcat_item ", ".toList controls control,
          log ++ ioctl_call.VIDIOC_QUERYCTRL fd id :: calls)
    | (none, calls) =>
      device_control_set_loop os body fd rest (c.queryctrl.id ||| next_fl)
        (controls, log ++ ioctl_call.VIDIOC_QUERYCTRL fd id :: calls)

/-- The handler `device_control_set`: the reply sent and the device requests
issued. -/
def device_control_set (os : Os) (body : json_body) (device_name : List Char) :
    http_reply × List ioctl_call :=
  let fd := device_open os device_name
  if fd = 0 then
    ({ status := 400, headers := [], body := "Device can't be opened.".toList }, [])
  else
    let r := device_control_set_loop os body fd (os.controls fd) next_fl
      (("\x7b ".toList, 0), [])
    ({ status := 200, headers := "Content-Type: application/json\r\n".toList,
       body := r.1.1 ++ " \x7d\n".toList }, r.2)

/-! ## Reference definitions for the statements -/

/-- The integers `lo, lo + 1, ...`, `n` of them, in ascending order. -/
def int_range : Int → Nat → List Int
  | _, 0 => []
  | lo, n + 1 => lo :: int_range (lo + 1) n

/-- From the spec's words: the ordered mapping of a menu control, from each
index of `[minimum, maximum]` whose menu entry resolves to the label of a menu
or the printed value of an integer menu. -/
def menu_mapping (c : control_io) : List (Int × List Char) :=
  (int_range c.queryctrl.minimum (c.queryctrl.maximum - c.queryctrl.minimum + 1).toNat).filterMap
    (fun i => (c.querymenu (to_u32 i)).map
      (fun querymenu => (i, if c.queryctrl.type = V4L2_CTRL_TYPE_MENU then querymenu.name
                            else fmt_d querymenu.value)))

/-- A member `"key": "label"` of the menu object, as text. -/
def menu_member (m : Int × List Char) : List Char :=
  "\"".toList ++ fmt_d m.1 ++ "\": \"".toList ++ m.2 ++ "\"".toList

/-- The requests `VIDIOC_QUERYCTRL` of the cursor protocol and, after each one
that succeeds, the requests made for the control it returned. -/
def cursor_calls (fd : Int) (calls : control_io → List ioctl_call) :
    List control_io → Nat → List ioctl_call
  | [], id => [ioctl_call.VIDIOC_QUERYCTRL fd id]
  | c :: rest, id =>
    ioctl_call.VIDIOC_QUERYCTRL fd id :: calls c ++
      cursor_calls fd calls rest (c.queryctrl.id ||| next_fl)

/-- Whether a request is a write, `VIDIOC_S_CTRL`. -/
def is_write : ioctl_call → Bool
  | ioctl_call.VIDIOC_S_CTRL _ _ _ => true
  | _ => false

/-- From the spec's words (4.6): the result entry of one enumerated control.
None when the name has no canonical id or the id is not found in the request;
for a numeric value the value read back after a successful write, or the
error text of the write or of the read that failed; for a string the fixed
message. -/
def control_write_result (os : Os) (body : json_body) (c : control_io) : Option (List Char) :=
  match name2var c.queryctrl.name with
  | NameResult.str canonical_id =>
    match body.mjson_get_number ("$.".toList ++ canonical_id) with
    | some value =>
      match c.s_ctrl value with
      | some errno => some (FORMAT_CONTROL_STRING canonical_id (os.strerror errno))
      | none =>
        match c.g_ctrl_written value with
        | Except.ok current => some (FORMAT_CONTROL_VALUE canonical_id current)
        | Except.error errno => some (FORMAT_CONTROL_STRING canonical_id (os.strerror errno))
    | none =>
      if body.mjson_get_string ("$.".toList ++ canonical_id) 32 > -1 then
        some (FORMAT_CONTROL_STRING canonical_id "Error: Only numbers are expected".toList)
      else none
  | _ => none

/-- A JSON value of a request body; a number is given by `(__s32)dv`, the
conversion of the double that `mjson_get_number` stores. -/
inductive json_value
  | number (value : Int)
  | string (s : List Char)
  | boolean (b : Bool)
  | null
  | array
  | object

/-- The value a JSON path `$.key` selects in an object with the given members. -/
def member_at (members : List (List Char × json_value)) (path : List Char) :
    Option json_value :=
  (members.find? (fun m => decide ("$.".toList ++ m.1 = path))).map (fun m => m.2)

/-- The two lookups of mjson.h on a body that is a JSON object with the given
members, after the interface of that library: `mjson_get_number` succeeds on a
number only; `mjson_get_string` returns the length of a string that fits the
buffer of `n` bytes with its NUL, and -1 for a longer string and for any value
that is not a string. -/
def json_object (members : List (List Char × json_value)) : json_body :=
  { mjson_get_number := fun path =>
      match member_at members path with
      | some (json_value.number value) => some value
      | _ => none
    mjson_get_string := fun path n =>
      match member_at members path with
      | some (json_value.string s) => if s.length < n then (s.length : Int) else -1
      | _ => -1 }

/-- A control "Brightness" with range [0, 100] that stores what is written. -/
def brightness : control_io :=
  { queryctrl := { id := 0x00980900, type := 1, name := "Brightness".toList, minimum := 0,
                   maximum := 100, step := 1, default_value := 50, flags := 0 }
    g_ctrl := Except.ok 50
    querymenu := fun _ => none
    s_ctrl := fun _ => none
    g_ctrl_written := fun value => Except.ok value }

/-- A menu control with the given range whose entries resolve at the listed
indices only. -/
def menu_control (minimum maximum : Int) (resolving : List Nat) : control_io :=
  { queryctrl := { id := 0x009a0901, type := V4L2_CTRL_TYPE_MENU, name := "Exposure, Auto".toList,
                   minimum := minimum, maximum := maximum, step := 1, default_value := 0,
                   flags := 0 }
    g_ctrl := Except.ok 0
    querymenu := fun index =>
      if index ∈ resolving then some { name := "Mode".toList, value := 0 } else none
    s_ctrl := fun _ => none
    g_ctrl_written := fun value => Except.ok value }

/-- A system with the single node `/dev/video0`, opened as descriptor 5, whose
driver enumerates the given controls; every other `open` fails. -/
def one_device (controls : List control_io) : Os :=
  { sys_open := fun path => if path = "/dev/video0".toList then 5 else -1
    controls := fun fd => if fd = 5 then controls else []
    strerror := fun errno => if errno = 22 then "Invalid argument".toList
                             else "Input/output error".toList
    querycap := fun fd => if fd = 5 then some V4L2_CAP_VIDEO_CAPTURE else none
    enum_fmt := fun _ _ _ => none
    enum_framesizes := fun _ _ _ => none }

/-! ## `device_formats` (main.c 565-656) -/

/- Frame-size types of `<linux/videodev2.h>`. -/
def V4L2_FRMSIZE_TYPE_DISCRETE : Nat := 1
def V4L2_FRMSIZE_TYPE_CONTINUOUS : Nat := 2
def V4L2_FRMSIZE_TYPE_STEPWISE : Nat := 3

/-- The macro `pixfmtstr(x)` printed with `%c%c%c%c`: the four bytes of a pixel
format, lowest first. -/
def pixfmtstr (x : Nat) : List Char :=
  [Char.ofNat (x &&& 0xff), Char.ofNat ((x >>> 8) &&& 0xff),
   Char.ofNat ((x >>> 16) &&& 0xff), Char.ofNat ((x >>> 24) &&& 0xff)]

/-- The format `FORMAT_DISCRETE`; the `__u32` sizes are printed with `%d`. -/
def FORMAT_DISCRETE (pixelformat width height : Nat) : List Char :=
  "\"".toList ++ pixfmtstr pixelformat ++
    "\": \x7b \"type\": \"DISCRETE\", \"width\": \"".toList ++ fmt_d (wrap32 width) ++
    "\", \"height\": \"".toList ++ fmt_d (wrap32 height) ++ "\" \x7d".toList

/-- The format `FORMAT_STEPWISE`, with its arguments in the order of the call. -/
def FORMAT_STEPWISE (pixelformat min_width min_height max_width max_height step_width
    step_height : Nat) : List Char :=
  "\"".toList ++ pixfmtstr pixelformat ++
    "\": \x7b \"type\": \"STEPWISE\", \"min_width\": \"".toList ++ fmt_d (wrap32 min_width) ++
    "\", \"min_height\": \"".toList ++ fmt_d (wrap32 min_height) ++
    "\", \"max_width\": \"".toList ++ fmt_d (wrap32 max_width) ++
    "\", \"max_height\": \"".toList ++ fmt_d (wrap32 max_height) ++
    "\", \"step_width\": \"".toList ++ fmt_d (wrap32 step_width) ++
    "\", \"step_height\": \"".toList ++ fmt_d (wrap32 step_height) ++ "\" \x7d".toList

/-- The text `format` built for one frame size: empty when the type is neither
discrete nor stepwise. -/
def frmsize_format (pixelformat : Nat) (frmsize : v4l2_frmsizeenum) : List Char :=
  if frmsize.type = V4L2_FRMSIZE_TYPE_DISCRETE then
    FORMAT_DISCRETE pixelformat frmsize.discrete.width frmsize.discrete.height
  else if frmsize.type = V4L2_FRMSIZE_TYPE_STEPWISE then
    FORMAT_STEPWISE pixelformat frmsize.stepwise.min_width frmsize.stepwise.min_height
      frmsize.stepwise.max_width frmsize.stepwise.max_height frmsize.stepwise.step_width
      frmsize.stepwise.step_height
  else []

/-- The loop `while (ioctl(fd, VIDIOC_ENUM_FRAMESIZES, &frmsize) >= 0)` for one
pixel format, from `frmsize.index` on, with the state `(formats, format_count)`
and the requests issued. One unit of fuel is one call; `none` is a loop still
running when the fuel is spent. -/
def device_formats_framesizes (os : Os) (fd : Int) (pixelformat : Nat) :
    Nat → Nat → (List Char × Nat) × List ioctl_call →
      Option ((List Char × Nat) × List ioctl_call)
  | 0, _, _ => none
  | fuel + 1, index, (formats, log) =>
    match os.enum_framesizes fd pixelformat index with
    | some frmsize =>
      device_formats_framesizes os fd pixelformat fuel ((index + 1) % 4294967296)
        (strcat_item ", ".toList formats (frmsize_format pixelformat frmsize),
          log ++ [ioctl_call.VIDIOC_ENUM_FRAMESIZES fd pixelformat index])
    | none => some (formats, log ++ [ioctl_call.VIDIOC_ENUM_FRAMESIZES fd pixelformat index])

/-- The loop `while (ioctl(fd, VIDIOC_ENUM_FMT, &fmtdesc) == 0)` for the buffer
type in `fmtdesc.type`, from the value `fmtdesc.index` has on entry; it returns
the value of `fmtdesc.index` on exit with the state `(formats, format_count)`
and the requests issued. Each of the two loops may make `fuel` calls. -/
def device_formats_enum_fmt (os : Os) (fd : Int) (type : Nat) (fuel_framesizes : Nat) :
    Nat → Nat → (List Char × Nat) × List ioctl_call →
      Option (Nat × (List Char × Nat) × List ioctl_call)
  | 0, _, _ => none
  | fuel + 1, index, (formats, log) =>
    match os.enum_fmt fd type index with
    | some pixelformat =>
      match device_formats_framesizes os fd pixelformat fuel_framesizes 0
          (formats, log ++ [ioctl_call.VIDIOC_ENUM_FMT fd type index]) with
      | some st =>
        device_formats_enum_fmt os fd type fuel_framesizes fuel ((index + 1) % 4294967296) st
      | none => none
    | none => some (index, formats, log ++ [ioctl_call.VIDIOC_ENUM_FMT fd type index])

/-- The variables of `device_formats` that live across the iterations of the
loop over the buffer types. -/
structure formats_state where
  fmtdesc_index : Nat
  formats : List Char × Nat
  result : List Char × Nat
  log : List ioctl_call

/-- The loop `for (c = 1; c < 14; c++)` of `device_formats` over the codes still
to come: a type that `device_buffer_check(&cap, c, 0)` rejects is skipped; for
the others the formats are enumerated and the member
`"name": \x7b formats \x7d` is appended to `result`, the name being
`v4l2_buffer_type_names[c - 1].name`. -/
def device_formats_types (fuel : Nat) (os : Os) (fd : Int) (capabilities : Nat) :
    List Nat → formats_state → Option formats_state
  | [], st => some st
  | c :: rest, st =>
    if device_buffer_check capabilities c 0 = 0 then
      device_formats_types fuel os fd capabilities rest st
    else
      match device_formats_enum_fmt os fd c fuel fuel st.fmtdesc_index (st.formats, st.log) with
      | some (index, formats, log) =>
        device_formats_types fuel os fd capabilities rest
          { fmtdesc_index := index
            formats := formats
            result := strcat_item ", ".toList st.result
              ("\"".toList ++ c_str (v4l2_buffer_type_names.getD (c - 1) enum_zero).name ++
                "\": \x7b ".toList ++ formats.1 ++ " \x7d".toList)
            log := log }
      | none => none

/-- The handler `device_formats`: the reply sent and the device requests
issued; `none` when one of the enumeration loops is still running after `fuel`
calls. -/
def device_formats (fuel : Nat) (os : Os) (device_name : List Char) :
    Option (http_reply × List ioctl_call) :=
  let fd := device_open os device_name
  if fd = 0 then
    some ({ status := 400, headers := [], body := "Device can't be opened.".toList }, [])
  else
    match os.querycap fd with
    | some capabilities =>
      match device_formats_types fuel os fd capabilities (List.range' 1 13)
          { fmtdesc_index := 0, formats := ([], 0), result := ("\x7b ".toList, 0),
            log := [ioctl_call.VIDIOC_QUERYCAP fd] } with
      | some st =>
        some ({ status := 200, headers := "Content-Type: application/json\r\n".toList,
                body := st.result.1 ++ " \x7d\n".toList }, st.log)
      | none => none
    | none =>
      some ({ status := 200, headers := "Content-Type: application/json\r\n".toList,
              body := "\x7b ".toList ++ " \x7d\n".toList }, [ioctl_call.VIDIOC_QUERYCAP fd])

/-- A device `/dev/video0` (descriptor 5) with the capabilities VIDEO_CAPTURE
and VIDEO_OUTPUT. Capture has the single format YUYV, at index 0; output has
the single format MJPG at index 0 when `output_format` is set and no format
otherwise. YUYV has the single frame size 640x480 and MJPG 320x240, both
discrete. -/
def two_type_device (output_format : Bool) : Os :=
  { sys_open := fun path => if path = "/dev/video0".toList then 5 else -1
    controls := fun _ => []
    strerror := fun _ => "Invalid argument".toList
    querycap := fun fd =>
      if fd = 5 then some (V4L2_CAP_VIDEO_CAPTURE ||| V4L2_CAP_VIDEO_OUTPUT) else none
    enum_fmt := fun fd type index =>
      if fd = 5 ∧ index = 0 ∧ type = V4L2_BUF_TYPE_VIDEO_CAPTURE then some 0x56595559
      else if fd = 5 ∧ index = 0 ∧ type = V4L2_BUF_TYPE_VIDEO_OUTPUT ∧ output_format = true then
        some 0x47504a4d
      else none
    enum_framesizes := fun fd pixel_format index =>
      if fd = 5 ∧ index = 0 ∧ pixel_format = 0x56595559 then
        some { type := V4L2_FRMSIZE_TYPE_DISCRETE, discrete := { width := 640, height := 480 },
               stepwise := { min_width := 640, max_width := 480, step_width := 0,
                             min_height := 0, max_height := 0, step_height := 0 } }
      else if fd = 5 ∧ index = 0 ∧ pixel_format = 0x47504a4d then
        some { type := V4L2_FRMSIZE_TYPE_DISCRETE, discrete := { width := 320, height := 240 },
               stepwise := { min_width := 320, max_width := 240, step_width := 0,
                             min_height := 0, max_height := 0, step_height := 0 } }
      else none }

/-! ## `field_name_get` and `colorspace_name_get` (main.c 134-159, 658-680) -/

/- Field orders (`enum v4l2_field`) of `<linux/videodev2.h>`. -/
def V4L2_FIELD_ANY : Nat := 0
def V4L2_FIELD_NONE : Nat := 1
def V4L2_FIELD_TOP : Nat := 2
def V4L2_FIELD_BOTTOM : Nat := 3
def V4L2_FIELD_INTERLACED : Nat := 4
def V4L2_FIELD_SEQ_TB : Nat := 5
def V4L2_FIELD_SEQ_BT : Nat := 6
def V4L2_FIELD_ALTERNATE : Nat := 7
def V4L2_FIELD_INTERLACED_TB : Nat := 8
def V4L2_FIELD_INTERLACED_BT : Nat := 9

/- Colorspaces (`enum v4l2_colorspace`) of `<linux/videodev2.h>`. -/
def V4L2_COLORSPACE_DEFAULT : Nat := 0
def V4L2_COLORSPACE_SMPTE170M : Nat := 1
def V4L2_COLORSPACE_SMPTE240M : Nat := 2
def V4L2_COLORSPACE_REC709 : Nat := 3
def V4L2_COLORSPACE_BT878 : Nat := 4
def V4L2_COLORSPACE_470_SYSTEM_M : Nat := 5
def V4L2_COLORSPACE_470_SYSTEM_BG : Nat := 6
def V4L2_COLORSPACE_JPEG : Nat := 7
def V4L2_COLORSPACE_SRGB : Nat := 8
def V4L2_COLORSPACE_OPRGB : Nat := 9
def V4L2_COLORSPACE_BT2020 : Nat := 10
def V4L2_COLORSPACE_RAW : Nat := 11
def V4L2_COLORSPACE_DCI_P3 : Nat := 12

/-- The table `v4l2_field_names[10]`. -/
def v4l2_field_names : List enum_names :=
  [ enum_entry V4L2_FIELD_ANY "ANY",
    enum_entry V4L2_FIELD_NONE "NONE",
    enum_entry V4L2_FIELD_TOP "TOP",
    enum_entry V4L2_FIELD_BOTTOM "BOTTOM",
    enum_entry V4L2_FIELD_INTERLACED "INTERLACED",
    enum_entry V4L2_FIELD_SEQ_TB "SEQ_TB",
    enum_entry V4L2_FIELD_SEQ_BT "SEQ_BT",
    enum_entry V4L2_FIELD_ALTERNATE "ALTERNATE",
    enum_entry V4L2_FIELD_INTERLACED_TB "INTERLACED_TB",
    enum_entry V4L2_FIELD_INTERLACED_BT "INTERLACED_BT" ]

/-- The table `v4l2_colorspace_names[13]`. -/
def v4l2_colorspace_names : List enum_names :=
  [ enum_entry V4L2_COLORSPACE_DEFAULT "DEFAULT",
    enum_entry V4L2_COLORSPACE_SMPTE170M "SMPTE170M",
    enum_entry V4L2_COLORSPACE_SMPTE240M "SMPTE240M",
    enum_entry V4L2_COLORSPACE_REC709 "REC709",
    enum_entry V4L2_COLORSPACE_BT878 "BT878",
    enum_entry V4L2_COLORSPACE_470_SYSTEM_M "470_SYSTEM_M",
    enum_entry V4L2_COLORSPACE_470_SYSTEM_BG "SYSTEM_BG",
    enum_entry V4L2_COLORSPACE_JPEG "JPEG",
    enum_entry V4L2_COLORSPACE_SRGB "SRGB",
    enum_entry V4L2_COLORSPACE_OPRGB "OPRGB",
    enum_entry V4L2_COLORSPACE_BT2020 "BT2020",
    enum_entry V4L2_COLORSPACE_RAW "RAW",
    enum_entry V4L2_COLORSPACE_DCI_P3 "DCI_P3" ]

/-- Size of the allocation `snum = malloc(10)`. -/
def snum_size : Nat := 10

/-- The tail of both functions: `snum = malloc(10); sprintf(snum, "%d", n)`. The
text needs `length + 1` bytes; when they exceed the allocation `sprintf`
writes past it (`NameResult.overrun`). -/
def snum_get (n : Int) : NameResult :=
  if (fmt_d n).length + 1 ≤ snum_size then NameResult.str (fmt_d n) else NameResult.overrun

/-- The function `field_name_get`: the name at index `field` of
`v4l2_field_names` when `field > -1 && field < 10`, else the number printed. -/
def field_name_get (field : Int) : NameResult :=
  if field > -1 ∧ field < 10 then
    NameResult.str (c_str (v4l2_field_names.getD field.toNat enum_zero).name)
  else snum_get field

/-- The function `colorspace_name_get`: the name at index `colorspace` of
`v4l2_colorspace_names` when `colorspace > -1 && colorspace < 13`, else the
number printed. -/
def colorspace_name_get (colorspace : Int) : NameResult :=
  if colorspace > -1 ∧ colorspace < 13 then
    NameResult.str (c_str (v4l2_colorspace_names.getD colorspace.toNat enum_zero).name)
  else snum_get colorspace

/-! ## Reference definitions: JSON members -/

/-- A member whose value is a JSON integer: `"key": 42`. -/
def integer_member (key : String) (value : Int) : List Char :=
  "\"".toList ++ key.toList ++ "\": ".toList ++ fmt_d value

/-- A member whose value is a JSON string holding the number: `"key": "42"`. -/
def string_member (key : String) (value : Int) : List Char :=
  "\"".toList ++ key.toList ++ "\": \"".toList ++ fmt_d value ++ "\"".toList

/-- The member of a listed control: its canonical id, the five numbers as JSON
strings and the menu object. -/
def control_member (var_name : List Char) (q : v4l2_queryctrl) (value : Int)
    (menu : List Char) : List Char :=
  "\"".toList ++ var_name ++ "\": \x7b ".toList ++
    string_member "minimum" q.minimum ++ ", ".toList ++
    string_member "maximum" q.maximum ++ ", ".toList ++
    string_member "default" q.default_value ++ ", ".toList ++
    string_member "step" q.step ++ ", ".toList ++
    string_member "value" value ++ ", \"menu\": \x7b ".toList ++ menu ++ " \x7d \x7d".toList

/-! ## Theorems: libc characters -/

theorem tolower_cases (c : Char) :
    tolower c = c ∨ (isalnum (tolower c) = true ∧ tolower (tolower c) = tolower c) := by
  by_cases h : 65 ≤ c.toNat ∧ c.toNat ≤ 90
  · right
    obtain ⟨h1, h2⟩ := h
    have hc : c = Char.ofNat c.toNat := (Char.ofNat_toNat c).symm
    generalize c.toNat = n at hc h1 h2
    subst hc
    interval_cases n <;> decide
  · left
    simp [tolower, Char.toLower, h]

theorem isalnum_tolower (c : Char) (h : isalnum c = true) : isalnum (tolower c) = true := by
  rcases tolower_cases c with h1 | h1
  · rw [h1]; exact h
  · exact h1.1

theorem tolower_tolower (c : Char) : tolower (tolower c) = tolower c := by
  rcases tolower_cases c with h1 | h1
  · rw [h1, h1]
  · exact h1.2

theorem isalnum_underscore : isalnum '_' = false := by decide

theorem tolower_ne_underscore (c : Char) (h : isalnum c = true) : tolower c ≠ '_' := by
  intro hc
  have h1 := isalnum_tolower c h
  rw [hc, isalnum_underscore] at h1
  exact Bool.noConfusion h1

/-! ## Theorems: `name2var` -/

theorem name2var_loop_eq (cs out : List Char) (f : Bool) :
    name2var_loop cs out f = out ++ name2var_appended f cs := by
  induction cs generalizing out f with
  | nil => simp [name2var_loop, name2var_appended]
  | cons c rest ih =>
    by_cases hc : isalnum c = true
    · cases f <;> simp [name2var_loop, name2var_appended, hc, ih]
    · simp [name2var_loop, name2var_appended, hc, ih]

theorem name2var_appended_length (f : Bool) (cs : List Char) :
    (name2var_appended f cs).length ≤ cs.length + (if f then 1 else 0) := by
  induction cs generalizing f with
  | nil => simp [name2var_appended]
  | cons c rest ih =>
    by_cases hc : isalnum c = true
    · have h := ih false
      cases f <;> simp [name2var_appended, hc] at h ⊢ <;> omega
    · have h := ih true
      cases f <;> simp [name2var_appended, hc] at h ⊢ <;> omega

/-- Reading an output of the loop again appends it unchanged. -/
theorem name2var_appended_fix (f : Bool) (cs : List Char) :
    name2var_appended false (name2var_appended f cs) = name2var_appended f cs := by
  induction cs generalizing f with
  | nil => simp [name2var_appended]
  | cons c rest ih =>
    by_cases hc : isalnum c = true
    · have hl := isalnum_tolower c hc
      cases f <;>
        simp [name2var_appended, hc, hl, isalnum_underscore, tolower_tolower, ih]
    · simpa [name2var_appended, hc] using ih true

theorem name2var_str_iff (name y : List Char) :
    name2var name = NameResult.str y ↔
      ¬ len_name name > 127 ∧
      y = name2var_appended false (name.take (len_name name + 1).toNat) ∧
      y.length + 1 ≤ out_name_size := by
  unfold name2var
  by_cases h : len_name name > 127
  · simp [h]
  · simp only [h, if_false, name2var_loop_eq, List.nil_append, not_false_eq_true, true_and]
    by_cases h2 : (name2var_appended false (name.take (len_name name + 1).toNat)).length + 1
        ≤ out_name_size
    · simp only [h2, if_true, NameResult.str.injEq]
      constructor
      · intro e; subst e; exact ⟨rfl, h2⟩
      · intro e; exact e.1.symm
    · simp only [h2, if_false]
      constructor
      · intro e; cases e
      · rintro ⟨e, h3⟩; subst e; exact absurd h3 h2

theorem len_name_small (y : List Char) (h : y.length + 1 ≤ out_name_size) :
    len_name y = (y.length : Int) - 1 := by
  unfold len_name wrap32 strlen
  unfold out_name_size at h
  omega

/-- C1: `name2var` is idempotent: when it accepts a name `x` and returns `y`,
it accepts `y` and returns `y` again. -/
theorem name2var_idempotent (x y : List Char) (h : name2var x = NameResult.str y) :
    name2var y = NameResult.str y := by
  obtain ⟨_, hy, hlen⟩ := (name2var_str_iff x y).1 h
  have hl := len_name_small y hlen
  rw [name2var_str_iff]
  refine ⟨?_, ?_, hlen⟩
  · rw [hl]; unfold out_name_size at hlen; omega
  · have ht : ((y.length : Int) - 1 + 1).toNat = y.length := by omega
    rw [hl, ht, List.take_length]
    rw [hy, name2var_appended_fix]

theorem name2var_idempotent_witness :
    name2var " Gain (dB)".toList = NameResult.str "_gain_db".toList ∧
    name2var "_gain_db".toList = NameResult.str "_gain_db".toList :=
  ⟨by decide, name2var_idempotent " Gain (dB)".toList "_gain_db".toList (by decide)⟩

/-- No two neighbours are both the separator. -/
theorem name2var_appended_chain (f : Bool) (cs : List Char) :
    List.Chain' (fun a b => ¬ (a = '_' ∧ b = '_')) (name2var_appended f cs) := by
  induction cs generalizing f with
  | nil => simp [name2var_appended]
  | cons c rest ih =>
    by_cases hc : isalnum c = true
    · have hl := tolower_ne_underscore c hc
      have h1 : List.Chain' (fun a b => ¬ (a = '_' ∧ b = '_'))
          (tolower c :: name2var_appended false rest) :=
        List.chain'_cons'.2 ⟨fun b _ hb => hl hb.1, ih false⟩
      cases f
      · simpa [name2var_appended, hc] using h1
      · have h2 : List.Chain' (fun a b => ¬ (a = '_' ∧ b = '_'))
            ('_' :: tolower c :: name2var_appended false rest) :=
          List.chain'_cons'.2 ⟨fun b hb hb2 => by
            simp only [List.head?_cons, Option.mem_def, Option.some.injEq] at hb
            exact hl (hb.trans hb2.2), h1⟩
        simpa [name2var_appended, hc] using h2
    · simpa [name2var_appended, hc] using ih true

/-- The last character appended is never the separator. -/
theorem name2var_appended_getLast (f : Bool) (cs : List Char) :
    (name2var_appended f cs).getLast? ≠ some '_' := by
  induction cs generalizing f with
  | nil => simp [name2var_appended]
  | cons c rest ih =>
    by_cases hc : isalnum c = true
    · have hl := tolower_ne_underscore c hc
      have h1 : (tolower c :: name2var_appended false rest).getLast? ≠ some '_' := by
        cases hr : name2var_appended false rest with
        | nil => simpa using hl
        | cons d ds =>
          rw [List.getLast?_cons_cons, ← hr]
          exact ih false
      cases f
      · simpa [name2var_appended, hc] using h1
      · have h2 : ('_' :: tolower c :: name2var_appended false rest).getLast? ≠ some '_' := by
          rw [List.getLast?_cons_cons]; exact h1
        simpa [name2var_appended, hc] using h2
    · simpa [name2var_appended, hc] using ih true

/-- A leading separator comes from a pending `add_underscore` or from a name
that begins with a character that is not alphanumeric. -/
theorem name2var_appended_head (f : Bool) (cs : List Char)
    (h : (name2var_appended f cs).head? = some '_') :
    f = true ∨ ∃ c, cs.head? = some c ∧ isalnum c = false := by
  cases cs with
  | nil => simp [name2var_appended] at h
  | cons c rest =>
    by_cases hc : isalnum c = true
    · cases f
      · simp [name2var_appended, hc] at h
        exact absurd h (tolower_ne_underscore c hc)
      · exact Or.inl rfl
    · exact Or.inr ⟨c, rfl, by simpa using hc⟩

/-- C2 (as amended): a string returned by `name2var` never ends with `_` and
never contains two consecutive `_`; it can start with `_` only when the name
begins with a character that is not alphanumeric. -/
theorem name2var_separators (x y : List Char) (h : name2var x = NameResult.str y) :
    y.getLast? ≠ some '_' ∧ ¬ ['_', '_'] <:+: y ∧
      (y.head? = some '_' → ∃ c, x.head? = some c ∧ isalnum c = false) := by
  obtain ⟨_, hy, _⟩ := (name2var_str_iff x y).1 h
  subst hy
  refine ⟨name2var_appended_getLast _ _, ?_, ?_⟩
  · rintro ⟨s, t, e⟩
    have hch := name2var_appended_chain false (x.take (len_name x + 1).toNat)
    rw [← e] at hch
    simp [List.chain'_append] at hch
  · intro hh
    rcases name2var_appended_head _ _ hh with hf | ⟨c, hc, hn⟩
    · cases hf
    · refine ⟨c, ?_, hn⟩
      rw [List.head?_take] at hc
      split at hc
      · cases hc
      · exact hc

theorem name2var_separators_witness :
    name2var "Gain  (dB)!!".toList = NameResult.str "gain_db".toList ∧
    ("gain_db".toList.getLast? ≠ some '_' ∧ ¬ ['_', '_'] <:+: "gain_db".toList ∧
      ("gain_db".toList.head? = some '_' →
        ∃ c, "Gain  (dB)!!".toList.head? = some c ∧ isalnum c = false)) :=
  ⟨by decide, name2var_separators "Gain  (dB)!!".toList "gain_db".toList (by decide)⟩

/-- C2 (as stated) fails: the names " Gain" and "(x)" are accepted and the
strings returned, "_gain" and "_x", start with `_`. -/
theorem name2var_leading_underscore :
    name2var " Gain".toList = NameResult.str "_gain".toList ∧
    name2var "(x)".toList = NameResult.str "_x".toList ∧
    "_gain".toList.head? = some '_' ∧ "_x".toList.head? = some '_' := by
  decide

/-- C3: `name2var("Auto Exposure")` is "auto_exposure" and
`name2var("Gain  (dB)!!")` is "gain_db". -/
theorem name2var_examples :
    name2var "Auto Exposure".toList = NameResult.str "auto_exposure".toList ∧
    name2var "Gain  (dB)!!".toList = NameResult.str "gain_db".toList := by
  decide

/-- Names of at most 127 characters are accepted and yield a string. -/
theorem name2var_short (name : List Char) (h : strlen name ≤ 127) :
    ∃ y, name2var name = NameResult.str y := by
  unfold strlen at h
  have hl : len_name name = (name.length : Int) - 1 := by
    unfold len_name wrap32 strlen; omega
  refine ⟨_, (name2var_str_iff name _).2 ⟨?_, rfl, ?_⟩⟩
  · rw [hl]; omega
  · have h1 := name2var_appended_length false (name.take (len_name name + 1).toNat)
    simp only [List.length_take, Bool.false_eq_true, if_false, Nat.add_zero] at h1
    unfold out_name_size
    omega

/-- Names of 129 characters and more (below 2^31) are rejected. -/
theorem name2var_long (name : List Char) (h : 129 ≤ strlen name)
    (h2 : strlen name ≤ 2147483648) : name2var name = NameResult.null := by
  have hl : len_name name > 127 := by
    unfold len_name wrap32; omega
  simp [name2var, hl]

set_option maxRecDepth 100000 in
/-- C4: a name of 128 characters passes the length test (`len_name` is 127):
128 alphanumeric characters are appended to the 128-byte `out_name`, whose
terminating NUL then lies outside the array, and a 128-character name ending
in a space is returned as a string of 127 characters. -/
theorem name2var_128_not_rejected :
    strlen (List.replicate 128 'a') = 128 ∧
    name2var (List.replicate 128 'a') = NameResult.overrun ∧
    name2var (List.replicate 127 'a' ++ [' ']) = NameResult.str (List.replicate 127 'a') := by
  decide

/-! ## Theorems: text assembly -/

theorem foldl_strcat_item_pos (sep : List Char) (items : List (List Char)) (buf : List Char)
    (n : Nat) (hn : n ≠ 0) :
    items.foldl (strcat_item sep) (buf, n) =
      (buf ++ (items.map (fun x => sep ++ x)).flatten, n + items.length) := by
  induction items generalizing buf n with
  | nil => simp
  | cons x xs ih =>
    rw [List.foldl_cons]
    simp only [strcat_item, hn, ne_eq, not_false_eq_true, if_true]
    rw [ih _ _ (Nat.succ_ne_zero n)]
    simp [Nat.add_comm, Nat.add_left_comm]

theorem intercalate_cons (sep x : List Char) (xs : List (List Char)) :
    List.intercalate sep (x :: xs) = x ++ (xs.map (fun y => sep ++ y)).flatten := by
  induction xs generalizing x with
  | nil => simp [List.intercalate]
  | cons y ys ih =>
    have h := ih y
    simp only [List.intercalate, List.intersperse, List.flatten_cons, List.map_cons] at h ⊢
    rw [h]
    simp

/-- Appending items with the counter idiom, from an empty buffer, builds the
items joined by the separator and counts them. -/
theorem foldl_strcat_item (sep : List Char) (items : List (List Char)) :
    items.foldl (strcat_item sep) ([], 0) = (List.intercalate sep items, items.length) := by
  cases items with
  | nil => simp [List.intercalate]
  | cons x xs =>
    rw [List.foldl_cons]
    simp only [strcat_item, ne_eq, not_true_eq_false, if_false, List.nil_append]
    rw [foldl_strcat_item_pos sep xs x 1 (by decide), intercalate_cons]
    simp [Nat.add_comm]

/-! ## Theorems: capability and buffer-type decoding -/

theorem device_list_capabilities_loop_eq (capabilities : Nat) (table : List enum_names)
    (st : List Char × Nat) :
    device_list_capabilities_loop capabilities table st =
      (((table.filter (fun e => decide (capabilities &&& to_u32 e.bitmask ≠ 0))).map
          (fun e => quoted (c_str e.name))).foldl (strcat_item ",".toList) st) := by
  induction table generalizing st with
  | nil => simp [device_list_capabilities_loop]
  | cons e rest ih =>
    by_cases h : capabilities &&& to_u32 e.bitmask ≠ 0
    · rw [device_list_capabilities_loop, if_pos h, ih, List.filter_cons_of_pos (by simpa using h)]
      simp [strcat_item, quoted, List.append_assoc]
    · rw [device_list_capabilities_loop, if_neg h, ih, List.filter_cons_of_neg (by simpa using h)]

theorem and_two_pow_ne_zero (m k : Nat) : m &&& 2 ^ k ≠ 0 ↔ m.testBit k = true := by
  rw [Nat.and_two_pow]
  cases h : m.testBit k <;> simp

/-- C5: for every capability mask the text emitted by the capability loop of
`device_list` is the quoted names of the table entries whose flag is in the
mask, in table order and separated by commas; every entry's flag is a single
bit of the 32, no two entries share a flag or a name, so each name is emitted
once and exactly when its bit is set; `VIDEO_CAPTURE|STREAMING` gives
`"VIDEO_CAPTURE","STREAMING"`. -/
theorem device_list_capabilities_exact :
    (∀ capabilities : Nat,
      device_list_capabilities capabilities =
        List.intercalate ",".toList ((decoded_capabilities capabilities).map quoted)) ∧
    (∀ e ∈ v4l2_capability_names, ∃ k, k < 32 ∧ to_u32 e.bitmask = 2 ^ k ∧
      ∀ capabilities : Nat, (capabilities &&& to_u32 e.bitmask ≠ 0 ↔
        capabilities.testBit k = true)) ∧
    (v4l2_capability_names.map (fun e => e.bitmask)).Nodup ∧
    (v4l2_capability_names.map (fun e => e.name)).Nodup ∧
    decoded_capabilities (V4L2_CAP_VIDEO_CAPTURE ||| V4L2_CAP_STREAMING) =
      ["VIDEO_CAPTURE".toList, "STREAMING".toList] ∧
    device_list_capabilities (V4L2_CAP_VIDEO_CAPTURE ||| V4L2_CAP_STREAMING) =
      "\"VIDEO_CAPTURE\",\"STREAMING\"".toList := by
  refine ⟨?_, ?_, by decide, by decide, by decide, by decide⟩
  · intro capabilities
    rw [device_list_capabilities, device_list_capabilities_loop_eq, foldl_strcat_item]
    simp [decoded_capabilities, List.map_map, Function.comp_def]
  · have hbits : ∀ e ∈ v4l2_capability_names,
        ∃ k, k < 32 ∧ to_u32 e.bitmask = 2 ^ k := by
      decide
    intro e he
    obtain ⟨k, hk, hpow⟩ := hbits e he
    exact ⟨k, hk, hpow, fun capabilities => by rw [hpow]; exact and_two_pow_ne_zero capabilities k⟩

theorem u32_to_int_ne_zero (capabilities flag : Nat) (h : flag < 2147483648) :
    u32_to_int (capabilities &&& flag) ≠ 0 ↔ capabilities &&& flag ≠ 0 := by
  have hle : capabilities &&& flag ≤ flag := Nat.and_le_right
  unfold u32_to_int wrap32
  omega

theorem not_and_ne_zero (a : Int) (b : Nat) : not_and a b ≠ 0 ↔ b ≠ 0 ∧ a = 0 := by
  unfold not_and
  by_cases h : a = 0 ∧ b ≠ 0
  · simp [h]
  · simp only [h, if_false, ne_eq, not_true_eq_false, false_iff]
    tauto

/-- The buffer-type and capability entries that carry the same name: the ten
buffer types 1..10, each with the capability flag tested in its `case`. -/
theorem same_name_pairs :
    ∀ b ∈ v4l2_buffer_type_names, ∀ f ∈ v4l2_capability_names,
      b.name = f.name →
        (b.bitmask, to_u32 f.bitmask, c_str b.name) ∈
          [ ((V4L2_BUF_TYPE_VIDEO_CAPTURE : Int), V4L2_CAP_VIDEO_CAPTURE, "VIDEO_CAPTURE".toList),
            ((V4L2_BUF_TYPE_VIDEO_OUTPUT : Int), V4L2_CAP_VIDEO_OUTPUT, "VIDEO_OUTPUT".toList),
            ((V4L2_BUF_TYPE_VIDEO_OVERLAY : Int), V4L2_CAP_VIDEO_OVERLAY, "VIDEO_OVERLAY".toList),
            ((V4L2_BUF_TYPE_VBI_CAPTURE : Int), V4L2_CAP_VBI_CAPTURE, "VBI_CAPTURE".toList),
            ((V4L2_BUF_TYPE_VBI_OUTPUT : Int), V4L2_CAP_VBI_OUTPUT, "VBI_OUTPUT".toList),
            ((V4L2_BUF_TYPE_SLICED_VBI_CAPTURE : Int), V4L2_CAP_SLICED_VBI_CAPTURE,
              "SLICED_VBI_CAPTURE".toList),
            ((V4L2_BUF_TYPE_SLICED_VBI_OUTPUT : Int), V4L2_CAP_SLICED_VBI_OUTPUT,
              "SLICED_VBI_OUTPUT".toList),
            ((V4L2_BUF_TYPE_VIDEO_OUTPUT_OVERLAY : Int), V4L2_CAP_VIDEO_OUTPUT_OVERLAY,
              "VIDEO_OUTPUT_OVERLAY".toList),
            ((V4L2_BUF_TYPE_VIDEO_CAPTURE_MPLANE : Int), V4L2_CAP_VIDEO_CAPTURE_MPLANE,
              "VIDEO_CAPTURE_MPLANE".toList),
            ((V4L2_BUF_TYPE_VIDEO_OUTPUT_MPLANE : Int), V4L2_CAP_VIDEO_OUTPUT_MPLANE,
              "VIDEO_OUTPUT_MPLANE".toList) ] := by
  decide

/-- C6: for every capability mask, every `exclude_overlay` and every buffer
type of `v4l2_buffer_type_names` that has a capability flag of the same name in
`v4l2_capability_names` (these are the ten types with codes 1..10),
`device_buffer_check` returns non-zero exactly when the mask contains that
flag, and for the names VIDEO_OVERLAY and VIDEO_OUTPUT_OVERLAY exactly when
the flag is set and `exclude_overlay` is 0. -/
theorem device_buffer_check_iff (capabilities : Nat) (exclude_overlay : Int)
    (b f : enum_names) (hb : b ∈ v4l2_buffer_type_names) (hf : f ∈ v4l2_capability_names)
    (hname : b.name = f.name) :
    (1 ≤ b.bitmask ∧ b.bitmask ≤ 10) ∧
    (device_buffer_check capabilities b.bitmask exclude_overlay ≠ 0 ↔
      capabilities &&& to_u32 f.bitmask ≠ 0 ∧
        (c_str b.name = "VIDEO_OVERLAY".toList ∨ c_str b.name = "VIDEO_OUTPUT_OVERLAY".toList →
          exclude_overlay = 0)) := by
  have h := same_name_pairs b hb f hf hname
  generalize b.bitmask = c at h ⊢
  generalize to_u32 f.bitmask = flag at h ⊢
  generalize c_str b.name = name at h ⊢
  simp only [List.mem_cons, Prod.mk.injEq, List.mem_singleton, List.not_mem_nil, or_false] at h
  rcases h with h | h | h | h | h | h | h | h | h | h <;> obtain ⟨rfl, rfl, hn⟩ := h
  all_goals refine ⟨by decide, ?_⟩
  all_goals
    unfold device_buffer_check
    repeat (first | rw [if_pos rfl] | rw [if_neg (by decide)])
    first
    | (rw [u32_to_int_ne_zero _ _ (by decide)]
       have hs : ¬ (name = "VIDEO_OVERLAY".toList ∨ name = "VIDEO_OUTPUT_OVERLAY".toList) := by
         rw [hn]; decide
       exact ⟨fun h => ⟨h, fun h2 => absurd h2 hs⟩, fun h => h.1⟩)
    | (rw [not_and_ne_zero]
       have hs : name = "VIDEO_OVERLAY".toList ∨ name = "VIDEO_OUTPUT_OVERLAY".toList := by
         rw [hn]; decide
       exact ⟨fun h => ⟨h.1, fun _ => h.2⟩, fun h => ⟨h.1, h.2 hs⟩⟩)

theorem device_buffer_check_iff_witness :
    (enum_entry V4L2_BUF_TYPE_VIDEO_OVERLAY "VIDEO_OVERLAY" ∈ v4l2_buffer_type_names ∧
      enum_entry V4L2_CAP_VIDEO_OVERLAY "VIDEO_OVERLAY" ∈ v4l2_capability_names ∧
      (enum_entry V4L2_BUF_TYPE_VIDEO_OVERLAY "VIDEO_OVERLAY").name =
        (enum_entry V4L2_CAP_VIDEO_OVERLAY "VIDEO_OVERLAY").name) ∧
    ((1 ≤ (enum_entry V4L2_BUF_TYPE_VIDEO_OVERLAY "VIDEO_OVERLAY").bitmask ∧
        (enum_entry V4L2_BUF_TYPE_VIDEO_OVERLAY "VIDEO_OVERLAY").bitmask ≤ 10) ∧
      (device_buffer_check 5 (enum_entry V4L2_BUF_TYPE_VIDEO_OVERLAY "VIDEO_OVERLAY").bitmask 1
          ≠ 0 ↔
        5 &&& to_u32 (enum_entry V4L2_CAP_VIDEO_OVERLAY "VIDEO_OVERLAY").bitmask ≠ 0 ∧
          (c_str (enum_entry V4L2_BUF_TYPE_VIDEO_OVERLAY "VIDEO_OVERLAY").name =
              "VIDEO_OVERLAY".toList ∨
            c_str (enum_entry V4L2_BUF_TYPE_VIDEO_OVERLAY "VIDEO_OVERLAY").name =
              "VIDEO_OUTPUT_OVERLAY".toList →
            (1 : Int) = 0))) :=
  ⟨by decide,
    device_buffer_check_iff 5 1 (enum_entry V4L2_BUF_TYPE_VIDEO_OVERLAY "VIDEO_OVERLAY")
      (enum_entry V4L2_CAP_VIDEO_OVERLAY "VIDEO_OVERLAY") (by decide) (by decide) rfl⟩

/-! ## Theorems: `device_control_set` -/

/-- The counter idiom from a buffer that holds text but no item yet. -/
theorem foldl_strcat_item_from (sep buf : List Char) (items : List (List Char)) :
    items.foldl (strcat_item sep) (buf, 0) = (buf ++ List.intercalate sep items, items.length) := by
  cases items with
  | nil => simp [List.intercalate]
  | cons x xs =>
    rw [List.foldl_cons]
    simp only [strcat_item, ne_eq, not_true_eq_false, if_false]
    rw [foldl_strcat_item_pos sep xs (buf ++ x) (0 + 1) (by decide), intercalate_cons]
    simp [Nat.add_comm]

theorem device_control_set_loop_eq (os : Os) (body : json_body) (fd : Int)
    (ctrls : List control_io) (id : Nat) (st : List Char × Nat) (log : List ioctl_call) :
    device_control_set_loop os body fd ctrls id (st, log) =
      ((ctrls.filterMap (fun c => (device_control_set_control os body fd c).1)).foldl
          (strcat_item ", ".toList) st,
        log ++ cursor_calls fd (fun c => (device_control_set_control os body fd c).2) ctrls id) := by
  induction ctrls generalizing id st log with
  | nil => simp [device_control_set_loop, cursor_calls]
  | cons c rest ih =>
    rw [device_control_set_loop]
    rcases h : device_control_set_control os body fd c with ⟨_ | control, calls⟩
    · simp only [ih, List.filterMap_cons, h, cursor_calls]
      simp
    · simp only [ih, List.filterMap_cons, h, cursor_calls, List.foldl_cons]
      simp

theorem device_control_set_control_fst (os : Os) (body : json_body) (fd : Int) (c : control_io) :
    (device_control_set_control os body fd c).1 = control_write_result os body c := by
  unfold device_control_set_control control_write_result
  cases name2var c.queryctrl.name with
  | null => rfl
  | overrun => rfl
  | str v =>
    dsimp only
    cases body.mjson_get_number ("$.".toList ++ v) with
    | none => dsimp only; split <;> rfl
    | some value =>
      dsimp only
      cases c.s_ctrl value with
      | some e => rfl
      | none => dsimp only; cases c.g_ctrl_written value <;> rfl

theorem is_write_cursor_calls (fd : Int) (calls : control_io → List ioctl_call)
    (ctrls : List control_io) (id : Nat) :
    (cursor_calls fd calls ctrls id).filter is_write =
      ctrls.flatMap (fun c => (calls c).filter is_write) := by
  induction ctrls generalizing id with
  | nil => simp [cursor_calls, is_write]
  | cons c rest ih => simp [cursor_calls, is_write, ih]

/-- The reply of `device_control_set` once the descriptor is not 0. -/
theorem device_control_set_eq (os : Os) (body : json_body) (device_name : List Char)
    (hfd : device_open os device_name ≠ 0) :
    device_control_set os body device_name =
      ({ status := 200, headers := "Content-Type: application/json\r\n".toList,
         body := "\x7b ".toList ++
           List.intercalate ", ".toList
             ((os.controls (device_open os device_name)).filterMap
               (control_write_result os body)) ++ " \x7d\n".toList },
        cursor_calls (device_open os device_name)
          (fun c => (device_control_set_control os body (device_open os device_name) c).2)
          (os.controls (device_open os device_name)) next_fl) := by
  unfold device_control_set
  simp only [hfd, if_false, device_control_set_loop_eq, foldl_strcat_item_from, List.nil_append]
  have hfun : (fun c => (device_control_set_control os body (device_open os device_name) c).1) =
      control_write_result os body :=
    funext (device_control_set_control_fst os body _)
  rw [hfun]

/-- C8 (as amended): for every enumerated control whose canonical id selects in
the request body a value for which `mjson_get_number` fails and
`mjson_get_string` succeeds with the 32-byte buffer (a JSON string of at most
31 characters), the result holds, at that control's place, the canonical id
with the text "Error: Only numbers are expected", and the writes issued are
those of the other controls: none is issued for this one. -/
theorem device_control_set_only_numbers (os : Os) (body : json_body)
    (device_name : List Char) (pre post : List control_io) (c : control_io)
    (canonical_id : List Char)
    (hfd : device_open os device_name ≠ 0)
    (hctrls : os.controls (device_open os device_name) = pre ++ c :: post)
    (hid : name2var c.queryctrl.name = NameResult.str canonical_id)
    (hnum : body.mjson_get_number ("$.".toList ++ canonical_id) = none)
    (hstr : body.mjson_get_string ("$.".toList ++ canonical_id) 32 > -1) :
    (device_control_set os body device_name).1.body =
      "\x7b ".toList ++
        List.intercalate ", ".toList
          (pre.filterMap (control_write_result os body) ++
            FORMAT_CONTROL_STRING canonical_id "Error: Only numbers are expected".toList ::
              post.filterMap (control_write_result os body)) ++ " \x7d\n".toList ∧
    (device_control_set os body device_name).2.filter is_write =
      (pre ++ post).flatMap (fun c2 =>
        (device_control_set_control os body (device_open os device_name) c2).2.filter
          is_write) := by
  have hres : control_write_result os body c =
      some (FORMAT_CONTROL_STRING canonical_id "Error: Only numbers are expected".toList) := by
    simp only [control_write_result, hid, hnum, hstr, if_true]
  have hcalls : (device_control_set_control os body (device_open os device_name) c).2 = [] := by
    simp only [device_control_set_control, hid, hnum, hstr, if_true]
  rw [device_control_set_eq os body device_name hfd, hctrls]
  refine ⟨?_, ?_⟩
  · simp only [List.filterMap_append, List.filterMap_cons, hres]
  · simp only [is_write_cursor_calls, List.flatMap_append, List.flatMap_cons, hcalls,
      List.filter_nil, List.nil_append]

theorem device_control_set_only_numbers_witness :
    (device_open (one_device [brightness]) "video0".toList ≠ 0 ∧
      (one_device [brightness]).controls (device_open (one_device [brightness]) "video0".toList) =
        [] ++ brightness :: [] ∧
      name2var brightness.queryctrl.name = NameResult.str "brightness".toList ∧
      (json_object [("brightness".toList, json_value.string "high".toList)]).mjson_get_number
        ("$.".toList ++ "brightness".toList) = none ∧
      (json_object [("brightness".toList, json_value.string "high".toList)]).mjson_get_string
        ("$.".toList ++ "brightness".toList) 32 > -1) ∧
    ((device_control_set (one_device [brightness])
        (json_object [("brightness".toList, json_value.string "high".toList)])
        "video0".toList).1.body =
      "\x7b ".toList ++
        List.intercalate ", ".toList
          (([] : List control_io).filterMap (control_write_result (one_device [brightness])
              (json_object [("brightness".toList, json_value.string "high".toList)])) ++
            FORMAT_CONTROL_STRING "brightness".toList "Error: Only numbers are expected".toList ::
              ([] : List control_io).filterMap (control_write_result (one_device [brightness])
                (json_object [("brightness".toList, json_value.string "high".toList)]))) ++
        " \x7d\n".toList ∧
      (device_control_set (one_device [brightness])
        (json_object [("brightness".toList, json_value.string "high".toList)])
        "video0".toList).2.filter is_write =
      (([] : List control_io) ++ []).flatMap (fun c2 =>
        (device_control_set_control (one_device [brightness])
          (json_object [("brightness".toList, json_value.string "high".toList)])
          (device_open (one_device [brightness]) "video0".toList) c2).2.filter is_write)) ∧
    (device_control_set (one_device [brightness])
        (json_object [("brightness".toList, json_value.string "high".toList)])
        "video0".toList).1.body =
      "\x7b \"brightness\": \"Error: Only numbers are expected\" \x7d\n".toList :=
  ⟨⟨by decide, by rfl, by decide, by decide, by decide⟩,
    device_control_set_only_numbers (one_device [brightness])
      (json_object [("brightness".toList, json_value.string "high".toList)])
      "video0".toList [] [] brightness "brightness".toList
      (by decide) (by rfl) (by decide) (by decide) (by decide),
    by decide⟩

/-- C8 (as stated) fails: with the control "Brightness" enumerated and the
canonical id "brightness" a key of the body, the values `true`, `null`, an
array, an object and a string of 32 characters are not numbers, and the
result is the empty object: the id is not reported. -/
theorem device_control_set_non_string_silent :
    name2var brightness.queryctrl.name = NameResult.str "brightness".toList ∧
    (device_control_set (one_device [brightness])
      (json_object [("brightness".toList, json_value.boolean true)])
      "video0".toList).1.body = "\x7b  \x7d\n".toList ∧
    (device_control_set (one_device [brightness])
      (json_object [("brightness".toList, json_value.null)])
      "video0".toList).1.body = "\x7b  \x7d\n".toList ∧
    (device_control_set (one_device [brightness])
      (json_object [("brightness".toList, json_value.array)])
      "video0".toList).1.body = "\x7b  \x7d\n".toList ∧
    (device_control_set (one_device [brightness])
      (json_object [("brightness".toList, json_value.object)])
      "video0".toList).1.body = "\x7b  \x7d\n".toList ∧
    (device_control_set (one_device [brightness])
      (json_object [("brightness".toList, json_value.string (List.replicate 32 'x'))])
      "video0".toList).1.body = "\x7b  \x7d\n".toList := by
  decide

/-- C9: for every request body and every sequence of controls the driver
enumerates, once the descriptor is not 0 the reply of `device_control_set` is
200 with the object whose members are, in enumeration order, the result
entries of the controls that have one. A control whose canonical id selects a
number gets exactly one entry: the value read back when the write and the
read succeed, the error text of the call that failed otherwise. A control
whose id selects nothing in the body (both lookups fail) gets none. -/
theorem device_control_set_result (os : Os) (body : json_body) (device_name : List Char)
    (hfd : device_open os device_name ≠ 0) :
    (device_control_set os body device_name).1 =
      { status := 200, headers := "Content-Type: application/json\r\n".toList,
        body := "\x7b ".toList ++
          List.intercalate ", ".toList
            ((os.controls (device_open os device_name)).filterMap
              (control_write_result os body)) ++ " \x7d\n".toList } ∧
    ∀ c ∈ os.controls (device_open os device_name), ∀ canonical_id,
      name2var c.queryctrl.name = NameResult.str canonical_id →
      (∀ value, body.mjson_get_number ("$.".toList ++ canonical_id) = some value →
        (∀ current, c.s_ctrl value = none → c.g_ctrl_written value = Except.ok current →
          control_write_result os body c = some (FORMAT_CONTROL_VALUE canonical_id current)) ∧
        (∀ errno, c.s_ctrl value = none → c.g_ctrl_written value = Except.error errno →
          control_write_result os body c =
            some (FORMAT_CONTROL_STRING canonical_id (os.strerror errno))) ∧
        (∀ errno, c.s_ctrl value = some errno →
          control_write_result os body c =
            some (FORMAT_CONTROL_STRING canonical_id (os.strerror errno)))) ∧
      (body.mjson_get_number ("$.".toList ++ canonical_id) = none →
        body.mjson_get_string ("$.".toList ++ canonical_id) 32 ≤ -1 →
        control_write_result os body c = none) := by
  refine ⟨by rw [device_control_set_eq os body device_name hfd], ?_⟩
  intro c _ canonical_id hid
  refine ⟨fun value hnum => ⟨?_, ?_, ?_⟩, ?_⟩
  · intro current hs hg
    simp only [control_write_result, hid, hnum, hs, hg]
  · intro errno hs hg
    simp only [control_write_result, hid, hnum, hs, hg]
  · intro errno hs
    simp only [control_write_result, hid, hnum, hs]
  · intro hnum hstr
    have hnot : ¬ body.mjson_get_string ("$.".toList ++ canonical_id) 32 > -1 := by omega
    simp only [control_write_result, hid, hnum, hnot, if_false]

theorem device_control_set_result_witness :
    device_open (one_device [brightness]) "video0".toList ≠ 0 ∧
    (device_control_set (one_device [brightness])
        (json_object [("brightness".toList, json_value.number 50)]) "video0".toList).1 =
      { status := 200, headers := "Content-Type: application/json\r\n".toList,
        body := "\x7b ".toList ++
          List.intercalate ", ".toList
            (((one_device [brightness]).controls
                (device_open (one_device [brightness]) "video0".toList)).filterMap
              (control_write_result (one_device [brightness])
                (json_object [("brightness".toList, json_value.number 50)]))) ++
          " \x7d\n".toList } ∧
    (device_control_set (one_device [brightness])
        (json_object [("brightness".toList, json_value.number 50)]) "video0".toList).1.body =
      "\x7b \"brightness\": 50 \x7d\n".toList :=
  ⟨by decide,
    (device_control_set_result (one_device [brightness])
      (json_object [("brightness".toList, json_value.number 50)]) "video0".toList
      (by decide)).1,
    by decide⟩

/-! ## Theorems: the menu of `device_control_get` -/

theorem mem_int_range (i lo : Int) (n : Nat) : i ∈ int_range lo n ↔ lo ≤ i ∧ i < lo + n := by
  induction n generalizing lo with
  | zero => simp [int_range]
  | succ n ih =>
    simp only [int_range, List.mem_cons, ih]
    push_cast
    omega

theorem int_range_pairwise (lo : Int) (n : Nat) : (int_range lo n).Pairwise (fun a b => a < b) := by
  induction n generalizing lo with
  | zero => simp [int_range]
  | succ n ih =>
    simp only [int_range, List.pairwise_cons]
    refine ⟨fun i hi => ?_, ih (lo + 1)⟩
    have := (mem_int_range i (lo + 1) n).1 hi
    omega

theorem wrap32_to_u32 (i : Int) (h1 : -2147483648 ≤ i) (h2 : i ≤ 2147483647) :
    wrap32 (to_u32 i) = i := by
  unfold wrap32 to_u32
  omega

theorem wrap32_le (z : Int) : wrap32 z ≤ 2147483647 := by
  unfold wrap32
  omega

/-- The menu loop below `INT_MAX`: it ends after the last index, having
queried every index and appended the entries that resolved. -/
theorem menu_loop_run (fd : Int) (c : control_io) (n : Nat) :
    ∀ (fuel : Nat) (menu_index : Int) (menu : List Char × Nat) (log : List ioctl_call),
      -2147483648 ≤ menu_index → c.queryctrl.maximum < 2147483647 →
      n = (c.queryctrl.maximum - menu_index + 1).toNat → n < fuel →
      device_control_get_menu_loop fd c fuel menu_index (menu, log) =
        some (((int_range menu_index n).filterMap (fun i =>
                (c.querymenu (to_u32 i)).map
                  (menu_entry c.queryctrl.type (to_u32 i)))).foldl
                (strcat_item ", ".toList) menu,
              log ++ (int_range menu_index n).map (fun i =>
                ioctl_call.VIDIOC_QUERYMENU fd c.queryctrl.id (to_u32 i))) := by
  induction n with
  | zero =>
    intro fuel menu_index menu log _ _ hn hfuel
    obtain ⟨fuel, rfl⟩ : ∃ k, fuel = k + 1 := ⟨fuel - 1, by omega⟩
    have hgt : ¬ menu_index ≤ c.queryctrl.maximum := by omega
    simp [device_control_get_menu_loop, hgt, int_range]
  | succ n ih =>
    intro fuel menu_index menu log hlo hmax hn hfuel
    obtain ⟨fuel, rfl⟩ : ∃ k, fuel = k + 1 := ⟨fuel - 1, by omega⟩
    have hle : menu_index ≤ c.queryctrl.maximum := by omega
    have hw : wrap32 (menu_index + 1) = menu_index + 1 := by
      unfold wrap32; omega
    rw [device_control_get_menu_loop, if_pos hle]
    simp only [hw]
    cases hq : c.querymenu (to_u32 menu_index) with
    | none =>
      simp only []
      rw [ih fuel (menu_index + 1) menu _ (by omega) hmax (by omega) (by omega)]
      simp [int_range, hq]
    | some querymenu =>
      simp only []
      rw [ih fuel (menu_index + 1) _ _ (by omega) hmax (by omega) (by omega)]
      simp [int_range, hq]

/-- With `maximum` equal to `INT_MAX` the loop test never fails. -/
theorem menu_loop_int_max (fd : Int) (c : control_io) (h : c.queryctrl.maximum = 2147483647) :
    ∀ (fuel : Nat) (menu_index : Int) (st : (List Char × Nat) × List ioctl_call),
      menu_index ≤ 2147483647 → device_control_get_menu_loop fd c fuel menu_index st = none := by
  intro fuel
  induction fuel with
  | zero => intro menu_index st _; rfl
  | succ fuel ih =>
    intro menu_index st hle
    obtain ⟨menu, log⟩ := st
    rw [device_control_get_menu_loop, if_pos (by rw [h]; exact hle)]
    dsimp only
    cases c.querymenu (to_u32 menu_index) with
    | none => exact ih _ _ (wrap32_le _)
    | some querymenu => exact ih _ _ (wrap32_le _)

theorem menu_mapping_keys (c : control_io) :
    (menu_mapping c).map Prod.fst =
      (int_range c.queryctrl.minimum
        (c.queryctrl.maximum - c.queryctrl.minimum + 1).toNat).filter
        (fun i => (c.querymenu (to_u32 i)).isSome) := by
  unfold menu_mapping
  generalize int_range c.queryctrl.minimum
    (c.queryctrl.maximum - c.queryctrl.minimum + 1).toNat = l
  induction l with
  | nil => rfl
  | cons i rest ih =>
    cases hq : c.querymenu (to_u32 i) <;> simp [List.filterMap_cons, hq, ih]

theorem menu_entries_eq (c : control_io) (hmin : -2147483648 ≤ c.queryctrl.minimum)
    (hmax : c.queryctrl.maximum < 2147483647) :
    (int_range c.queryctrl.minimum
        (c.queryctrl.maximum - c.queryctrl.minimum + 1).toNat).filterMap
      (fun i => (c.querymenu (to_u32 i)).map (menu_entry c.queryctrl.type (to_u32 i))) =
    (menu_mapping c).map menu_member := by
  unfold menu_mapping
  rw [List.map_filterMap]
  apply List.filterMap_congr
  intro i hi
  have hr := (mem_int_range i _ _).1 hi
  have hw : wrap32 (to_u32 i) = i := wrap32_to_u32 i (by omega) (by omega)
  cases c.querymenu (to_u32 i) with
  | none => rfl
  | some querymenu => simp [menu_entry, menu_member, hw]

/-- C7 (as amended): for every menu or integer-menu control whose name
normalises, whose current value can be read and whose `maximum` is below
`INT_MAX` (`minimum` being a 32-bit value), the loop of `device_control_get`
ends, having queried every index of `[minimum, maximum]` in ascending order;
the menu it builds is the text of the mapping whose keys are exactly the
indices of `[minimum, maximum]` whose query succeeds, in ascending order. -/
theorem device_control_get_menu (fuel : Nat) (fd : Int) (c : control_io)
    (var_name : List Char) (value : Int)
    (hname : name2var c.queryctrl.name = NameResult.str var_name)
    (hval : c.g_ctrl = Except.ok value)
    (htype : c.queryctrl.type = V4L2_CTRL_TYPE_MENU ∨
      c.queryctrl.type = V4L2_CTRL_TYPE_INTEGER_MENU)
    (hmin : -2147483648 ≤ c.queryctrl.minimum)
    (hmax : c.queryctrl.maximum < 2147483647)
    (hfuel : (c.queryctrl.maximum - c.queryctrl.minimum + 1).toNat < fuel) :
    device_control_get_control fuel fd c =
      some (some (FORMAT_CONTROL var_name c.queryctrl.minimum c.queryctrl.maximum
              c.queryctrl.default_value c.queryctrl.step value ++
            List.intercalate ", ".toList ((menu_mapping c).map menu_member) ++
            " \x7d \x7d".toList),
        ioctl_call.VIDIOC_G_CTRL fd c.queryctrl.id ::
          (int_range c.queryctrl.minimum
            (c.queryctrl.maximum - c.queryctrl.minimum + 1).toNat).map
            (fun i => ioctl_call.VIDIOC_QUERYMENU fd c.queryctrl.id (to_u32 i))) ∧
    (∀ i, i ∈ (menu_mapping c).map Prod.fst ↔
      c.queryctrl.minimum ≤ i ∧ i ≤ c.queryctrl.maximum ∧
        (c.querymenu (to_u32 i)).isSome = true) ∧
    ((menu_mapping c).map Prod.fst).Pairwise (fun a b => a < b) := by
  refine ⟨?_, ?_, ?_⟩
  · unfold device_control_get_control
    simp only [hname, hval, if_pos htype]
    rw [menu_loop_run fd c _ fuel c.queryctrl.minimum ([], 0) _ hmin hmax rfl hfuel,
      foldl_strcat_item, menu_entries_eq c hmin hmax]
    simp
  · intro i
    rw [menu_mapping_keys, List.mem_filter, mem_int_range]
    constructor
    · rintro ⟨⟨h1, h2⟩, h3⟩
      exact ⟨h1, by omega, h3⟩
    · rintro ⟨h1, h2, h3⟩
      exact ⟨⟨h1, by omega⟩, h3⟩
  · rw [menu_mapping_keys]
    exact (int_range_pairwise _ _).filter _

theorem device_control_get_menu_witness :
    (name2var (menu_control 0 4 [0, 2, 4]).queryctrl.name =
        NameResult.str "exposure_auto".toList ∧
      (menu_control 0 4 [0, 2, 4]).g_ctrl = Except.ok 0 ∧
      ((menu_control 0 4 [0, 2, 4]).queryctrl.type = V4L2_CTRL_TYPE_MENU ∨
        (menu_control 0 4 [0, 2, 4]).queryctrl.type = V4L2_CTRL_TYPE_INTEGER_MENU) ∧
      -2147483648 ≤ (menu_control 0 4 [0, 2, 4]).queryctrl.minimum ∧
      (menu_control 0 4 [0, 2, 4]).queryctrl.maximum < 2147483647 ∧
      ((menu_control 0 4 [0, 2, 4]).queryctrl.maximum -
        (menu_control 0 4 [0, 2, 4]).queryctrl.minimum + 1).toNat < 6) ∧
    (∀ i, i ∈ (menu_mapping (menu_control 0 4 [0, 2, 4])).map Prod.fst ↔
      (menu_control 0 4 [0, 2, 4]).queryctrl.minimum ≤ i ∧
        i ≤ (menu_control 0 4 [0, 2, 4]).queryctrl.maximum ∧
        ((menu_control 0 4 [0, 2, 4]).querymenu (to_u32 i)).isSome = true) ∧
    (menu_mapping (menu_control 0 4 [0, 2, 4])).map Prod.fst = [0, 2, 4] ∧
    (device_control_get 6 (one_device [menu_control 0 4 [0, 2, 4]]) "video0".toList).map
        (fun r => r.1.body) =
      some ("\x7b \"exposure_auto\": \x7b \"minimum\": \"0\", \"maximum\": \"4\", ".toList ++
        "\"default\": \"0\", \"step\": \"1\", \"value\": \"0\", \"menu\": \x7b ".toList ++
        "\"0\": \"Mode\", \"2\": \"Mode\", \"4\": \"Mode\" \x7d \x7d \x7d\n".toList) :=
  ⟨⟨by decide, rfl, by decide, by decide, by decide, by decide⟩,
    (device_control_get_menu 6 5 (menu_control 0 4 [0, 2, 4]) "exposure_auto".toList 0
      (by decide) rfl (by decide) (by decide) (by decide) (by decide)).2.1,
    by decide, by decide⟩

/-- C7 (as stated) fails: a menu control with `minimum = maximum = INT_MAX`
has `minimum <= maximum` and a readable value, yet the loop test
`menu_index <= maximum` holds for every `int`, the 32-bit increment continues
from `INT_MIN`, and the handler has built no mapping after any number of
steps. -/
theorem device_control_get_menu_int_max :
    (menu_control 2147483647 2147483647 []).queryctrl.minimum ≤
      (menu_control 2147483647 2147483647 []).queryctrl.maximum ∧
    (menu_control 2147483647 2147483647 []).queryctrl.type = V4L2_CTRL_TYPE_MENU ∧
    (menu_control 2147483647 2147483647 []).g_ctrl = Except.ok 0 ∧
    ¬ ∃ fuel, (device_control_get fuel
      (one_device [menu_control 2147483647 2147483647 []]) "video0".toList).isSome = true := by
  refine ⟨by decide, rfl, rfl, ?_⟩
  rintro ⟨fuel, h⟩
  have hloop := menu_loop_int_max 5 (menu_control 2147483647 2147483647 []) rfl fuel
    2147483647 (([], 0), [ioctl_call.VIDIOC_G_CTRL 5 0x009a0901]) (by decide)
  have hname : name2var (menu_control 2147483647 2147483647 []).queryctrl.name =
      NameResult.str "exposure_auto".toList := by decide
  have hctl : device_control_get_control fuel 5 (menu_control 2147483647 2147483647 []) =
      none := by
    unfold device_control_get_control
    simp only [hname]
    rw [show (menu_control 2147483647 2147483647 []).g_ctrl = Except.ok 0 from rfl]
    simp only [show (menu_control 2147483647 2147483647 []).queryctrl.type =
      V4L2_CTRL_TYPE_MENU from rfl, true_or, if_true]
    rw [show (menu_control 2147483647 2147483647 []).queryctrl.minimum = 2147483647 from rfl,
      show (menu_control 2147483647 2147483647 []).queryctrl.id = 0x009a0901 from rfl, hloop]
  have hfd : device_open (one_device [menu_control 2147483647 2147483647 []])
      "video0".toList = 5 := by decide
  have hget : device_control_get fuel (one_device [menu_control 2147483647 2147483647 []])
      "video0".toList = none := by
    unfold device_control_get
    simp only [hfd]
    rw [show (one_device [menu_control 2147483647 2147483647 []]).controls 5 =
      [menu_control 2147483647 2147483647 []] from rfl]
    simp [device_control_get_loop, hctl]
  rw [hget] at h
  simp at h

/-! ## Theorems: `device_open` and the test `if (!fd)` -/

/-- The handlers reply 400 exactly when `device_open` returns 0. -/
theorem device_control_set_status (os : Os) (body : json_body) (device_name : List Char) :
    (device_control_set os body device_name).1.status =
      if device_open os device_name = 0 then 400 else 200 := by
  unfold device_control_set
  by_cases h : device_open os device_name = 0 <;> simp [h]

/-- C10: on a system whose only node is `/dev/video0`, the name "doesnotexist"
makes `device_open` return `-ENODEV` = -19 and the name "video9" makes it
return the -1 of the failed `open`; neither is 0, so the test `if (!fd)` does
not fire: `device_control_get` and `device_control_set` issue
VIDIOC_QUERYCTRL on the negative descriptor and reply 200 with the empty
object instead of 400 "Device can't be opened.". -/
theorem device_open_failure_not_reported :
    device_open (one_device [brightness]) "doesnotexist".toList = -19 ∧
    device_open (one_device [brightness]) "video9".toList = -1 ∧
    device_control_get 0 (one_device [brightness]) "doesnotexist".toList =
      some ({ status := 200, headers := "Content-Type: application/json\r\n".toList,
              body := "\x7b  \x7d\n".toList },
            [ioctl_call.VIDIOC_QUERYCTRL (-19) next_fl]) ∧
    device_control_get 0 (one_device [brightness]) "video9".toList =
      some ({ status := 200, headers := "Content-Type: application/json\r\n".toList,
              body := "\x7b  \x7d\n".toList },
            [ioctl_call.VIDIOC_QUERYCTRL (-1) next_fl]) ∧
    device_control_set (one_device [brightness])
        (json_object [("brightness".toList, json_value.number 50)]) "doesnotexist".toList =
      ({ status := 200, headers := "Content-Type: application/json\r\n".toList,
         body := "\x7b  \x7d\n".toList },
       [ioctl_call.VIDIOC_QUERYCTRL (-19) next_fl]) ∧
    device_control_set (one_device [brightness])
        (json_object [("brightness".toList, json_value.number 50)]) "video9".toList =
      ({ status := 200, headers := "Content-Type: application/json\r\n".toList,
         body := "\x7b  \x7d\n".toList },
       [ioctl_call.VIDIOC_QUERYCTRL (-1) next_fl]) := by
  decide

/-! ## Theorems: `device_formats` -/

/-- C11: on a device that supports VIDEO_CAPTURE and VIDEO_OUTPUT, each with one
format at index 0, `device_formats` queries the capture formats at the indices
0 and 1 and then issues the first query for the output type, the second
supported type, with index 1, the value `fmtdesc.index` was left with, not
with index 0: the output format at index 0 is never asked for. -/
theorem device_formats_index_not_reset :
    device_buffer_check (V4L2_CAP_VIDEO_CAPTURE ||| V4L2_CAP_VIDEO_OUTPUT)
      V4L2_BUF_TYPE_VIDEO_CAPTURE 0 ≠ 0 ∧
    device_buffer_check (V4L2_CAP_VIDEO_CAPTURE ||| V4L2_CAP_VIDEO_OUTPUT)
      V4L2_BUF_TYPE_VIDEO_OUTPUT 0 ≠ 0 ∧
    (two_type_device true).enum_fmt 5 V4L2_BUF_TYPE_VIDEO_OUTPUT 0 = some 0x47504a4d ∧
    (device_formats 2 (two_type_device true) "video0".toList).map (fun r => r.2) =
      some [ioctl_call.VIDIOC_QUERYCAP 5,
            ioctl_call.VIDIOC_ENUM_FMT 5 V4L2_BUF_TYPE_VIDEO_CAPTURE 0,
            ioctl_call.VIDIOC_ENUM_FRAMESIZES 5 0x56595559 0,
            ioctl_call.VIDIOC_ENUM_FRAMESIZES 5 0x56595559 1,
            ioctl_call.VIDIOC_ENUM_FMT 5 V4L2_BUF_TYPE_VIDEO_CAPTURE 1,
            ioctl_call.VIDIOC_ENUM_FMT 5 V4L2_BUF_TYPE_VIDEO_OUTPUT 1] := by
  decide

set_option maxRecDepth 100000 in
/-- C12: on a device that supports VIDEO_CAPTURE, with the format YUYV of frame
size 640x480, and VIDEO_OUTPUT, whose format query fails at every index, the
mapping of `device_formats` has both keys in ascending order, but the entry
under VIDEO_OUTPUT is not empty: it holds the frame size discovered for the
capture type, because `formats` and `format_count` keep their contents from
one buffer type to the next. -/
theorem device_formats_entries_accumulate :
    (∀ index, (two_type_device false).enum_fmt 5 V4L2_BUF_TYPE_VIDEO_OUTPUT index = none) ∧
    (device_formats 2 (two_type_device false) "video0".toList).map (fun r => r.1.body) =
      some ("\x7b \"VIDEO_CAPTURE\": \x7b \"YUYV\": \x7b \"type\": \"DISCRETE\", ".toList ++
        "\"width\": \"640\", \"height\": \"480\" \x7d \x7d, ".toList ++
        "\"VIDEO_OUTPUT\": \x7b \"YUYV\": \x7b \"type\": \"DISCRETE\", ".toList ++
        "\"width\": \"640\", \"height\": \"480\" \x7d \x7d \x7d\n".toList) := by
  refine ⟨?_, by decide⟩
  intro index
  simp [two_type_device, V4L2_BUF_TYPE_VIDEO_OUTPUT, V4L2_BUF_TYPE_VIDEO_CAPTURE]

/-! ## Theorems: `field_name_get` and `colorspace_name_get` -/

/-- In range, `field_name_get` returns the name of the entry whose value is the
argument. -/
theorem field_name_get_table (field : Int) (h0 : 0 ≤ field) (h9 : field ≤ 9) :
    ∃ name, field_name_get field = NameResult.str name ∧
      ({ bitmask := field, name := some name } : enum_names) ∈ v4l2_field_names := by
  interval_cases field <;> exact ⟨_, rfl, by decide⟩

/-- In range, `colorspace_name_get` returns the name of the entry whose value is
the argument. -/
theorem colorspace_name_get_table (colorspace : Int) (h0 : 0 ≤ colorspace)
    (h12 : colorspace ≤ 12) :
    ∃ name, colorspace_name_get colorspace = NameResult.str name ∧
      ({ bitmask := colorspace, name := some name } : enum_names) ∈ v4l2_colorspace_names := by
  interval_cases colorspace <;> exact ⟨_, rfl, by decide⟩

/-- Out of range, both functions return the decimal text when it fits the ten
bytes of `snum` with its NUL. -/
theorem name_get_decimal (n : Int) (hfit : (fmt_d n).length + 1 ≤ snum_size) :
    (¬ (0 ≤ n ∧ n ≤ 9) → field_name_get n = NameResult.str (fmt_d n)) ∧
    (¬ (0 ≤ n ∧ n ≤ 12) → colorspace_name_get n = NameResult.str (fmt_d n)) := by
  constructor
  · intro h
    have hc : ¬ (n > -1 ∧ n < 10) := by omega
    simp only [field_name_get, hc, if_false, snum_get, hfit, if_true]
  · intro h
    have hc : ¬ (n > -1 ∧ n < 13) := by omega
    simp only [colorspace_name_get, hc, if_false, snum_get, hfit, if_true]

/-- C13: the value 1000000000 is outside both tables and its decimal text has ten
characters: `sprintf` needs eleven bytes of the ten allocated by `malloc(10)`,
so `field_name_get` and `colorspace_name_get` write past the allocation
instead of returning the text; so do they for -100000000. Values up to nine
characters, such as 10, 13 and -1, are returned as text. -/
theorem name_get_snum_overrun :
    (fmt_d 1000000000).length = 10 ∧
    field_name_get 1000000000 = NameResult.overrun ∧
    colorspace_name_get 1000000000 = NameResult.overrun ∧
    field_name_get (-100000000) = NameResult.overrun ∧
    colorspace_name_get (-100000000) = NameResult.overrun ∧
    field_name_get 10 = NameResult.str "10".toList ∧
    colorspace_name_get 13 = NameResult.str "13".toList ∧
    field_name_get (-1) = NameResult.str "-1".toList ∧
    field_name_get 4 = NameResult.str "INTERLACED".toList ∧
    colorspace_name_get 8 = NameResult.str "SRGB".toList := by
  decide

/-! ## Theorems: buffer types reported as supported -/

/-- C15: for every capability mask, every `exclude_overlay` and every code `c` of
the iterated range 1..13, when `device_buffer_check` returns non-zero the code
is at most 10 and the entry `v4l2_buffer_type_names[c - 1]` read for the key
holds the code `c` and a name that is not `NULL`; hence 11, 12 and 13 are
never reported and no zero slot of the table is read. -/
theorem device_buffer_check_supported (capabilities : Nat) (exclude_overlay : Int) (c : Nat)
    (h1 : 1 ≤ c) (h13 : c ≤ 13)
    (h : device_buffer_check capabilities c exclude_overlay ≠ 0) :
    c ≤ 10 ∧ ∃ name, v4l2_buffer_type_names.getD (c - 1) enum_zero =
      { bitmask := c, name := some name } := by
  interval_cases c
  case «11» => exact absurd rfl h
  case «12» => exact absurd rfl h
  case «13» => exact absurd rfl h
  all_goals exact ⟨by decide, _, rfl⟩

theorem device_buffer_check_supported_witness :
    (1 ≤ 9 ∧ 9 ≤ 13 ∧
      device_buffer_check V4L2_CAP_VIDEO_CAPTURE_MPLANE (9 : Nat) 1 ≠ 0) ∧
    (9 ≤ 10 ∧ ∃ name, v4l2_buffer_type_names.getD (9 - 1) enum_zero =
      { bitmask := (9 : Nat), name := some name }) :=
  ⟨by decide, device_buffer_check_supported V4L2_CAP_VIDEO_CAPTURE_MPLANE 1 9
    (by decide) (by decide) (by decide)⟩

/-! ## Theorems: the numbers of a listed control -/

theorem FORMAT_CONTROL_eq (var_name : List Char) (q : v4l2_queryctrl) (value : Int)
    (menu : List Char) :
    FORMAT_CONTROL var_name q.minimum q.maximum q.default_value q.step value ++ menu ++
        " \x7d \x7d".toList =
      control_member var_name q value menu := by
  simp only [FORMAT_CONTROL, control_member, string_member, List.append_assoc]
  rfl

/-- C14 (as amended): for every control listed by `device_control_get` (its name
normalises and its current value can be read), the member appended is the
canonical id with the fields minimum, maximum, default, step and value each
serialized as a JSON string holding the decimal number, followed by the menu
object; a control that is not a menu is always listed so. -/
theorem device_control_get_fields_quoted (fuel : Nat) (fd : Int) (c : control_io)
    (var_name : List Char) (value : Int)
    (hname : name2var c.queryctrl.name = NameResult.str var_name)
    (hval : c.g_ctrl = Except.ok value) :
    (¬ (c.queryctrl.type = V4L2_CTRL_TYPE_MENU ∨
          c.queryctrl.type = V4L2_CTRL_TYPE_INTEGER_MENU) →
      device_control_get_control fuel fd c =
        some (some (control_member var_name c.queryctrl value []),
          [ioctl_call.VIDIOC_G_CTRL fd c.queryctrl.id])) ∧
    (∀ control log, device_control_get_control fuel fd c = some (some control, log) →
      ∃ menu, control = control_member var_name c.queryctrl value menu) := by
  constructor
  · intro htype
    unfold device_control_get_control
    simp only [hname, hval, if_neg htype]
    rw [FORMAT_CONTROL_eq]
  · intro control log h
    unfold device_control_get_control at h
    simp only [hname, hval] at h
    split at h
    · rename_i menu count log2 _
      simp only [Option.some.injEq, Prod.mk.injEq] at h
      exact ⟨menu, by rw [← h.1, FORMAT_CONTROL_eq]⟩
    · cases h

theorem device_control_get_fields_quoted_witness :
    (name2var brightness.queryctrl.name = NameResult.str "brightness".toList ∧
      brightness.g_ctrl = Except.ok 50) ∧
    (¬ (brightness.queryctrl.type = V4L2_CTRL_TYPE_MENU ∨
          brightness.queryctrl.type = V4L2_CTRL_TYPE_INTEGER_MENU) →
      device_control_get_control 0 5 brightness =
        some (some (control_member "brightness".toList brightness.queryctrl 50 []),
          [ioctl_call.VIDIOC_G_CTRL 5 brightness.queryctrl.id])) ∧
    control_member "brightness".toList brightness.queryctrl 50 [] =
      "\"brightness\": \x7b \"minimum\": \"0\", \"maximum\": \"100\", ".toList ++
        "\"default\": \"50\", \"step\": \"1\", \"value\": \"50\", ".toList ++
        "\"menu\": \x7b  \x7d \x7d".toList :=
  ⟨⟨by decide, rfl⟩,
    (device_control_get_fields_quoted 0 5 brightness "brightness".toList 50 (by decide) rfl).1,
    by decide⟩

set_option maxRecDepth 100000 in
/-- C14 (as stated) fails: for the control "Brightness" (range 0..100, default
50, step 1, value 50) the reply of `device_control_get` holds
`"minimum": "0"`, `"maximum": "100"`, `"default": "50"`, `"step": "1"` and
`"value": "50"`: every number is between double quotes, and none of the five
fields occurs as a JSON integer. -/
theorem device_control_get_numbers_are_strings :
    (device_control_get 0 (one_device [brightness]) "video0".toList).map (fun r => r.1.body) =
      some ("\x7b \"brightness\": \x7b \"minimum\": \"0\", \"maximum\": \"100\", ".toList ++
        "\"default\": \"50\", \"step\": \"1\", \"value\": \"50\", ".toList ++
        "\"menu\": \x7b  \x7d \x7d \x7d\n".toList) ∧
    string_member "minimum" 0 <:+: ("\x7b \"brightness\": \x7b \"minimum\": \"0\", \"maximum\": \"100\", ".toList ++
        "\"default\": \"50\", \"step\": \"1\", \"value\": \"50\", ".toList ++
        "\"menu\": \x7b  \x7d \x7d \x7d\n".toList) ∧
    string_member "maximum" 100 <:+: ("\x7b \"brightness\": \x7b \"minimum\": \"0\", \"maximum\": \"100\", ".toList ++
        "\"default\": \"50\", \"step\": \"1\", \"value\": \"50\", ".toList ++
        "\"menu\": \x7b  \x7d \x7d \x7d\n".toList) ∧
    string_member "default" 50 <:+: ("\x7b \"brightness\": \x7b \"minimum\": \"0\", \"maximum\": \"100\", ".toList ++
        "\"default\": \"50\", \"step\": \"1\", \"value\": \"50\", ".toList ++
        "\"menu\": \x7b  \x7d \x7d \x7d\n".toList) ∧
    string_member "step" 1 <:+: ("\x7b \"brightness\": \x7b \"minimum\": \"0\", \"maximum\": \"100\", ".toList ++
        "\"default\": \"50\", \"step\": \"1\", \"value\": \"50\", ".toList ++
        "\"menu\": \x7b  \x7d \x7d \x7d\n".toList) ∧
    string_member "value" 50 <:+: ("\x7b \"brightness\": \x7b \"minimum\": \"0\", \"maximum\": \"100\", ".toList ++
        "\"default\": \"50\", \"step\": \"1\", \"value\": \"50\", ".toList ++
        "\"menu\": \x7b  \x7d \x7d \x7d\n".toList) ∧
    ¬ integer_member "minimum" 0 <:+: ("\x7b \"brightness\": \x7b \"minimum\": \"0\", \"maximum\": \"100\", ".toList ++
        "\"default\": \"50\", \"step\": \"1\", \"value\": \"50\", ".toList ++
        "\"menu\": \x7b  \x7d \x7d \x7d\n".toList) ∧
    ¬ integer_member "maximum" 100 <:+: ("\x7b \"brightness\": \x7b \"minimum\": \"0\", \"maximum\": \"100\", ".toList ++
        "\"default\": \"50\", \"step\": \"1\", \"value\": \"50\", ".toList ++
        "\"menu\": \x7b  \x7d \x7d \x7d\n".toList) ∧
    ¬ integer_member "default" 50 <:+: ("\x7b \"brightness\": \x7b \"minimum\": \"0\", \"maximum\": \"100\", ".toList ++
        "\"default\": \"50\", \"step\": \"1\", \"value\": \"50\", ".toList ++
        "\"menu\": \x7b  \x7d \x7d \x7d\n".toList) ∧
    ¬ integer_member "step" 1 <:+: ("\x7b \"brightness\": \x7b \"minimum\": \"0\", \"maximum\": \"100\", ".toList ++
        "\"default\": \"50\", \"step\": \"1\", \"value\": \"50\", ".toList ++
        "\"menu\": \x7b  \x7d \x7d \x7d\n".toList) ∧
    ¬ integer_member "value" 50 <:+: ("\x7b \"brightness\": \x7b \"minimum\": \"0\", \"maximum\": \"100\", ".toList ++
        "\"default\": \"50\", \"step\": \"1\", \"value\": \"50\", ".toList ++
        "\"menu\": \x7b  \x7d \x7d \x7d\n".toList) := by
  decide

end VideoControlRest
